import Mathlib

/-!
Verification of the space-fuel-calculator repository against its
natural-language specification.

The Python source is shallowly embedded: pure numeric code is modelled over
the real numbers (Python floats idealised as reals; the NaN/infinity guards
of the source are therefore vacuous in the model and float overflow cannot
occur — the mass-ratio ceiling subsumes the overflow branch), fallible code
returns `Except`, and the serialization layer is modelled over the rational
numbers so that it stays fully executable.  Raised Python exceptions are
modelled by the `PyError` enumeration.
-/

namespace SFC

/-- The exception kinds raised by the repository
(`utils/exceptions.py` plus the built-in `ValueError`/`TypeError`). -/
inductive PyError where
  | invalidInput
  | physicsViolation
  | dataFormatError
  | valueError
  deriving DecidableEq, Repr

/-- `models/engine.py`: the closed family of engine shapes
(`ChemicalEngine`, `IonEngine`, `NuclearEngine`), parametric in the scalar
type so that calculators can use `ℝ` and the serialization layer `ℚ`.
The constructor arguments carry the dataclass fields in source order; the
construction-time validation of `__post_init__` is modelled separately by
`mkChemicalEngine`, `mkIonEngine` and `mkNuclearEngine` because the fuel
calculator's duck-typed validation accepts engine values that never went
through `__post_init__`. -/
inductive Engine (α : Type) where
  | chemical (name : String) (specific_impulse : α) (thrust : α) (fuel_type : String)
  | ion (name : String) (specific_impulse : α) (thrust : α) (power_consumption : α)
  | nuclear (name : String) (specific_impulse : α) (thrust : α)
      (reactor_power : α) (propellant_type : String)
  deriving DecidableEq, Repr

namespace Engine

/-- The `name` attribute of any engine. -/
def name {α : Type} : Engine α → String
  | .chemical n _ _ _ => n
  | .ion n _ _ _ => n
  | .nuclear n _ _ _ _ => n

/-- The `specific_impulse` attribute of any engine (seconds). -/
def specific_impulse {α : Type} : Engine α → α
  | .chemical _ i _ _ => i
  | .ion _ i _ _ => i
  | .nuclear _ i _ _ _ => i

/-- The `thrust` attribute of any engine (Newtons). -/
def thrust {α : Type} : Engine α → α
  | .chemical _ _ t _ => t
  | .ion _ _ t _ => t
  | .nuclear _ _ t _ _ => t

end Engine

/-- `models/planet.py`: the `Planet` dataclass fields (validation modelled
separately by `mkPlanet`). -/
structure Planet (α : Type) where
  name : String
  mass : α
  radius : α
  orbital_radius : α
  escape_velocity : α
  deriving DecidableEq, Repr

/-- The `FuelResult` record (the calculator-owned copy in
`calculators/fuel_calculator.py` and the models-owned copy in
`models/mission.py` carry exactly the same fields; the models-owned
`__post_init__` validation is modelled by `mkFuelResult`). -/
structure FuelResult (α : Type) where
  outbound_fuel : α
  return_fuel : Option α
  total_fuel : α
  delta_v_outbound : α
  delta_v_return : Option α
  total_delta_v : α
  engine_used : Engine α
  trajectory_type : String
  deriving DecidableEq, Repr

/-- `STANDARD_GRAVITY` from `calculators/fuel_calculator.py`. -/
noncomputable def STANDARD_GRAVITY : ℝ := 9.80665

open Classical in
/-- `FuelCalculator._validate_fuel_calculation_inputs`.  The
`isinstance`/NaN/infinity guards of the source are identically satisfied by
real-valued inputs and the `hasattr` guards by any `Engine` value; the
remaining checks are `delta_v < 0`, `payload_mass <= 0` and
`engine.specific_impulse <= 0` — the source never checks the sign of
`engine.thrust`. -/
noncomputable def validate_fuel_calculation_inputs
    (delta_v payload_mass : ℝ) (engine : Engine ℝ) : Option PyError :=
  if delta_v < 0 then some .invalidInput
  else if payload_mass ≤ 0 then some .invalidInput
  else if engine.specific_impulse ≤ 0 then some .invalidInput
  else none

open Classical in
/-- `FuelCalculator.calculate_fuel_mass`: Tsiolkovsky sizing.  Mirrors the
source: validate, compute exhaust velocity, reject `delta_v > 50000`,
compute the mass ratio `exp (delta_v / exhaust_velocity)` (the float
`OverflowError` branch of the source cannot fire over `ℝ`; every input that
overflows in Python has mass ratio far above `1000` and is rejected by the
next check in the model), reject a mass ratio above `1000`, and otherwise
build the single-burn `FuelResult`. -/
noncomputable def calculate_fuel_mass
    (delta_v payload_mass : ℝ) (engine : Engine ℝ) :
    Except PyError (FuelResult ℝ) :=
  match validate_fuel_calculation_inputs delta_v payload_mass engine with
  | some e => .error e
  | none =>
    let exhaust_velocity := engine.specific_impulse * STANDARD_GRAVITY
    if 50000 < delta_v then .error .physicsViolation
    else
      let mr := Real.exp (delta_v / exhaust_velocity)
      if 1000 < mr then .error .physicsViolation
      else .ok
        { outbound_fuel := payload_mass * (mr - 1)
          return_fuel := none
          total_fuel := payload_mass * (mr - 1)
          delta_v_outbound := delta_v
          delta_v_return := none
          total_delta_v := delta_v
          engine_used := engine
          trajectory_type := "single_burn" }

/-- Shared characterization: on validated inputs under both physics
ceilings, `calculate_fuel_mass` succeeds with the Tsiolkovsky record. -/
theorem calculate_fuel_mass_ok (delta_v payload_mass : ℝ) (engine : Engine ℝ)
    (h0 : 0 ≤ delta_v) (h1 : 0 < payload_mass)
    (h2 : 0 < engine.specific_impulse) (h3 : delta_v ≤ 50000)
    (h4 : Real.exp (delta_v / (engine.specific_impulse * STANDARD_GRAVITY)) ≤ 1000) :
    calculate_fuel_mass delta_v payload_mass engine =
      .ok
        { outbound_fuel :=
            payload_mass *
              (Real.exp (delta_v / (engine.specific_impulse * STANDARD_GRAVITY)) - 1)
          return_fuel := none
          total_fuel :=
            payload_mass *
              (Real.exp (delta_v / (engine.specific_impulse * STANDARD_GRAVITY)) - 1)
          delta_v_outbound := delta_v
          delta_v_return := none
          total_delta_v := delta_v
          engine_used := engine
          trajectory_type := "single_burn" } := by
  rw [calculate_fuel_mass, validate_fuel_calculation_inputs]
  rw [if_neg (not_lt.2 h0), if_neg (not_le.2 h1), if_neg (not_le.2 h2)]
  simp only
  rw [if_neg (not_lt.2 h3), if_neg (not_lt.2 h4)]

/-- Shared numeric bound used by witnesses: `exp x ≤ 1000` for `x ≤ 6`. -/
theorem exp_le_thousand {x : ℝ} (h : x ≤ 6) : Real.exp x ≤ 1000 := by
  have h1 : Real.exp x ≤ Real.exp 6 := Real.exp_le_exp.2 h
  have h2 : Real.exp 6 = Real.exp 1 ^ 6 := by
    rw [← Real.exp_nat_mul]
    norm_num
  have h3 : Real.exp 1 ^ 6 ≤ 2.7182818286 ^ 6 :=
    pow_le_pow_left₀ (Real.exp_pos 1).le Real.exp_one_lt_d9.le 6
  have h4 : (2.7182818286 : ℝ) ^ 6 ≤ 1000 := by norm_num
  linarith

/-- A concrete chemical engine used by witnesses (Isp 300 s, valid thrust). -/
noncomputable def testChemEngine : Engine ℝ :=
  .chemical "TestChem" 300 1000000 "RP-1/LOX"

/-- C1: for every `delta_v`, `payload_mass` and engine passing validation,
with `delta_v ≤ 50000` and mass ratio
`exp (delta_v / (Isp * 9.80665)) ≤ 1000`, `calculate_fuel_mass` returns a
`FuelResult` whose `total_fuel` is exactly
`payload_mass * (mass_ratio - 1)` (hence within any positive relative
error), with `outbound_fuel = total_fuel`,
`delta_v_outbound = total_delta_v = delta_v`, `return_fuel` and
`delta_v_return` absent, and `trajectory_type = "single_burn"`. -/
theorem C1_single_burn_tsiolkovsky
    (delta_v payload_mass : ℝ) (engine : Engine ℝ)
    (h0 : 0 ≤ delta_v) (h1 : 0 < payload_mass)
    (h2 : 0 < engine.specific_impulse) (h3 : delta_v ≤ 50000)
    (h4 : Real.exp (delta_v / (engine.specific_impulse * STANDARD_GRAVITY)) ≤ 1000) :
    calculate_fuel_mass delta_v payload_mass engine =
      .ok
        { outbound_fuel :=
            payload_mass *
              (Real.exp (delta_v / (engine.specific_impulse * STANDARD_GRAVITY)) - 1)
          return_fuel := none
          total_fuel :=
            payload_mass *
              (Real.exp (delta_v / (engine.specific_impulse * STANDARD_GRAVITY)) - 1)
          delta_v_outbound := delta_v
          delta_v_return := none
          total_delta_v := delta_v
          engine_used := engine
          trajectory_type := "single_burn" } :=
  calculate_fuel_mass_ok delta_v payload_mass engine h0 h1 h2 h3 h4

/-- Witness for C1 at the spec's own example
(`delta_v = 3000`, payload 1000 kg, Isp 300 s). -/
theorem C1_single_burn_tsiolkovsky_witness :
    calculate_fuel_mass 3000 1000 testChemEngine =
      .ok
        { outbound_fuel :=
            1000 * (Real.exp (3000 / (300 * STANDARD_GRAVITY)) - 1)
          return_fuel := none
          total_fuel :=
            1000 * (Real.exp (3000 / (300 * STANDARD_GRAVITY)) - 1)
          delta_v_outbound := 3000
          delta_v_return := none
          total_delta_v := 3000
          engine_used := testChemEngine
          trajectory_type := "single_burn" } := by
  have h := C1_single_burn_tsiolkovsky 3000 1000 testChemEngine
    (by norm_num) (by norm_num)
    (by simp only [testChemEngine, Engine.specific_impulse]; norm_num)
    (by norm_num)
    (exp_le_thousand (by
      simp only [testChemEngine, Engine.specific_impulse, STANDARD_GRAVITY]
      norm_num))
  simpa only [testChemEngine, Engine.specific_impulse] using h

/-- The input conditions that actually make
`_validate_fuel_calculation_inputs` raise `InvalidInputError` (over real
inputs): negative delta-v, non-positive payload mass, or non-positive
specific impulse.  The sign of `thrust` is never inspected. -/
def badInput (delta_v payload_mass : ℝ) (engine : Engine ℝ) : Prop :=
  delta_v < 0 ∨ payload_mass ≤ 0 ∨ engine.specific_impulse ≤ 0

/-- An engine value whose `thrust` attribute is non-positive; Python's
duck-typed validator accepts it (`hasattr` only), e.g. a `ChemicalEngine`
whose `thrust` field was mutated after construction. -/
noncomputable def badThrustEngine : Engine ℝ :=
  .chemical "BadThrust" 300 (-1) "RP-1/LOX"

/-- Counterexample to C3: with positive Isp but `thrust = -1 ≤ 0` (a
condition the claim says must raise `InvalidInput`), `calculate_fuel_mass`
silently succeeds and returns a result. -/
theorem C3_error_classification_counterexample :
    badThrustEngine.thrust ≤ 0 ∧
    calculate_fuel_mass 1000 100 badThrustEngine =
      .ok
        { outbound_fuel :=
            100 * (Real.exp (1000 / (300 * STANDARD_GRAVITY)) - 1)
          return_fuel := none
          total_fuel :=
            100 * (Real.exp (1000 / (300 * STANDARD_GRAVITY)) - 1)
          delta_v_outbound := 1000
          delta_v_return := none
          total_delta_v := 1000
          engine_used := badThrustEngine
          trajectory_type := "single_burn" } := by
  constructor
  · simp only [badThrustEngine, Engine.thrust]
    norm_num
  · have h := calculate_fuel_mass_ok 1000 100 badThrustEngine
      (by norm_num) (by norm_num)
      (by simp only [badThrustEngine, Engine.specific_impulse]; norm_num)
      (by norm_num)
      (exp_le_thousand (by
        simp only [badThrustEngine, Engine.specific_impulse, STANDARD_GRAVITY]
        norm_num))
    simpa only [badThrustEngine, Engine.specific_impulse] using h

/-- C3 as amended: `calculate_fuel_mass` classifies errors as follows.
`InvalidInput` exactly when `delta_v < 0`, `payload_mass ≤ 0`, or the
engine's `specific_impulse` is non-positive (positivity of `thrust` is NOT
checked, only the attribute's presence); otherwise `PhysicsViolation`
exactly when `delta_v > 50000` (checked before the exponential) or the
mass ratio exceeds 1000; otherwise it returns a result — it never
silently clamps. -/
theorem C3_error_classification
    (delta_v payload_mass : ℝ) (engine : Engine ℝ) :
    (calculate_fuel_mass delta_v payload_mass engine = .error .invalidInput ↔
      badInput delta_v payload_mass engine) ∧
    (calculate_fuel_mass delta_v payload_mass engine = .error .physicsViolation ↔
      (¬ badInput delta_v payload_mass engine ∧
        (50000 < delta_v ∨
          1000 < Real.exp
            (delta_v / (engine.specific_impulse * STANDARD_GRAVITY))))) ∧
    ((∃ r, calculate_fuel_mass delta_v payload_mass engine = .ok r) ↔
      (¬ badInput delta_v payload_mass engine ∧ delta_v ≤ 50000 ∧
        Real.exp (delta_v / (engine.specific_impulse * STANDARD_GRAVITY)) ≤ 1000)) := by
  classical
  unfold calculate_fuel_mass validate_fuel_calculation_inputs badInput
  by_cases hd : delta_v < 0 <;>
    by_cases hp : payload_mass ≤ 0 <;>
      by_cases hi : engine.specific_impulse ≤ 0 <;>
        by_cases h5 : 50000 < delta_v <;>
          by_cases hm : 1000 <
              Real.exp (delta_v / (engine.specific_impulse * STANDARD_GRAVITY)) <;>
            simp [hd, hp, hi, h5, hm, not_lt.1, le_of_not_lt]

/-- Counterexample to C7: at the validated input `delta_v = 0` the fuel
mass is `0` for every payload, so `total_fuel` is NOT strictly increasing
in the payload mass (payloads `1 < 2` give equal fuel). -/
theorem C7_monotonicity_counterexample :
    (1 : ℝ) < 2 ∧
    calculate_fuel_mass 0 1 testChemEngine =
      .ok
        { outbound_fuel := 0
          return_fuel := none
          total_fuel := 0
          delta_v_outbound := 0
          delta_v_return := none
          total_delta_v := 0
          engine_used := testChemEngine
          trajectory_type := "single_burn" } ∧
    calculate_fuel_mass 0 2 testChemEngine =
      .ok
        { outbound_fuel := 0
          return_fuel := none
          total_fuel := 0
          delta_v_outbound := 0
          delta_v_return := none
          total_delta_v := 0
          engine_used := testChemEngine
          trajectory_type := "single_burn" } := by
  refine ⟨by norm_num, ?_, ?_⟩
  · have h := calculate_fuel_mass_ok 0 1 testChemEngine
      le_rfl (by norm_num)
      (by simp only [testChemEngine, Engine.specific_impulse]; norm_num)
      (by norm_num)
      (by rw [zero_div, Real.exp_zero]; norm_num)
    simpa only [zero_div, Real.exp_zero, sub_self, mul_zero] using h
  · have h := calculate_fuel_mass_ok 0 2 testChemEngine
      le_rfl (by norm_num)
      (by simp only [testChemEngine, Engine.specific_impulse]; norm_num)
      (by norm_num)
      (by rw [zero_div, Real.exp_zero]; norm_num)
    simpa only [zero_div, Real.exp_zero, sub_self, mul_zero] using h

/-- C7 as amended: for a fixed engine and a fixed STRICTLY POSITIVE
delta-v in the validated domain, the returned `total_fuel` strictly
increases with the payload mass.  (At `delta_v = 0` the fuel is `0` for
every payload, so strictness fails there.) -/
theorem C7_fuel_strictly_increasing_in_payload
    (delta_v : ℝ) (engine : Engine ℝ) (p1 p2 : ℝ) (r1 r2 : FuelResult ℝ)
    (hdv : 0 < delta_v) (hisp : 0 < engine.specific_impulse)
    (h5 : delta_v ≤ 50000)
    (hm : Real.exp (delta_v / (engine.specific_impulse * STANDARD_GRAVITY)) ≤ 1000)
    (hp1 : 0 < p1) (hlt : p1 < p2)
    (e1 : calculate_fuel_mass delta_v p1 engine = .ok r1)
    (e2 : calculate_fuel_mass delta_v p2 engine = .ok r2) :
    r1.total_fuel < r2.total_fuel := by
  have h1 := calculate_fuel_mass_ok delta_v p1 engine hdv.le hp1 hisp h5 hm
  have h2 := calculate_fuel_mass_ok delta_v p2 engine hdv.le
    (hp1.trans hlt) hisp h5 hm
  rw [e1] at h1
  rw [e2] at h2
  have hr1 := Except.ok.inj h1
  have hr2 := Except.ok.inj h2
  have hexp : 1 < Real.exp (delta_v / (engine.specific_impulse * STANDARD_GRAVITY)) := by
    rw [Real.one_lt_exp_iff]
    have hg : (0:ℝ) < STANDARD_GRAVITY := by norm_num [STANDARD_GRAVITY]
    exact div_pos hdv (mul_pos hisp hg)
  rw [hr1, hr2]
  simp only
  have hpos :
      0 < Real.exp (delta_v / (engine.specific_impulse * STANDARD_GRAVITY)) - 1 := by
    linarith
  exact mul_lt_mul_of_pos_right hlt hpos

/-- Witness for C7 as amended, at `delta_v = 1000`, payloads `1 < 2`,
Isp 300 s. -/
theorem C7_fuel_strictly_increasing_in_payload_witness :
    (FuelResult.total_fuel
      { outbound_fuel := 1 * (Real.exp (1000 / (300 * STANDARD_GRAVITY)) - 1)
        return_fuel := none
        total_fuel := 1 * (Real.exp (1000 / (300 * STANDARD_GRAVITY)) - 1)
        delta_v_outbound := 1000
        delta_v_return := none
        total_delta_v := 1000
        engine_used := testChemEngine
        trajectory_type := "single_burn" }) <
    (FuelResult.total_fuel
      { outbound_fuel := 2 * (Real.exp (1000 / (300 * STANDARD_GRAVITY)) - 1)
        return_fuel := none
        total_fuel := 2 * (Real.exp (1000 / (300 * STANDARD_GRAVITY)) - 1)
        delta_v_outbound := 1000
        delta_v_return := none
        total_delta_v := 1000
        engine_used := testChemEngine
        trajectory_type := "single_burn" }) := by
  have hisp : (0:ℝ) < testChemEngine.specific_impulse := by
    simp only [testChemEngine, Engine.specific_impulse]; norm_num
  have hm :
      Real.exp (1000 / (testChemEngine.specific_impulse * STANDARD_GRAVITY)) ≤ 1000 :=
    exp_le_thousand (by
      simp only [testChemEngine, Engine.specific_impulse, STANDARD_GRAVITY]
      norm_num)
  have e1 := calculate_fuel_mass_ok 1000 1 testChemEngine
    (by norm_num) (by norm_num) hisp (by norm_num) hm
  have e2 := calculate_fuel_mass_ok 1000 2 testChemEngine
    (by norm_num) (by norm_num) hisp (by norm_num) hm
  have h := C7_fuel_strictly_increasing_in_payload 1000 testChemEngine 1 2
    _ _ (by norm_num) hisp (by norm_num) hm (by norm_num) (by norm_num) e1 e2
  simpa only [testChemEngine, Engine.specific_impulse] using h

/-- `GM_SUN` constant local to `calculate_round_trip_fuel`. -/
noncomputable def GM_SUN : ℝ := 1.327e20

/-- `EARTH_ORBITAL_RADIUS` constant local to `calculate_round_trip_fuel`. -/
noncomputable def EARTH_ORBITAL_RADIUS : ℝ := 1.496e11

/-- The outbound delta-v computed by `calculate_round_trip_fuel`:
`abs (sqrt (GM_SUN / destination.orbital_radius) -
sqrt (GM_SUN / EARTH_ORBITAL_RADIUS))`. -/
noncomputable def outbound_delta_v (destination : Planet ℝ) : ℝ :=
  |Real.sqrt (GM_SUN / destination.orbital_radius) -
    Real.sqrt (GM_SUN / EARTH_ORBITAL_RADIUS)|

/-- The return delta-v computed by `calculate_round_trip_fuel`:
outbound delta-v plus the destination's escape velocity. -/
noncomputable def return_delta_v (destination : Planet ℝ) : ℝ :=
  outbound_delta_v destination + destination.escape_velocity

open Classical in
/-- `FuelCalculator._validate_round_trip_inputs` (the
`isinstance`/NaN/infinity guards are again vacuous over the model). -/
noncomputable def validate_round_trip_inputs
    (payload_mass : ℝ) (engine : Engine ℝ) : Option PyError :=
  if payload_mass ≤ 0 then some .invalidInput
  else if engine.specific_impulse ≤ 0 then some .invalidInput
  else none

/-- `FuelCalculator.calculate_round_trip_fuel`, faithful to the source:
validate, compute the two leg delta-vs from the simplified two-body model,
size each leg with an independent `calculate_fuel_mass` call on the same
payload, and assemble the `round_trip` record. -/
noncomputable def calculate_round_trip_fuel
    (destination : Planet ℝ) (payload_mass : ℝ) (engine : Engine ℝ) :
    Except PyError (FuelResult ℝ) :=
  match validate_round_trip_inputs payload_mass engine with
  | some e => .error e
  | none =>
    let dvo := outbound_delta_v destination
    let dvr := return_delta_v destination
    let total := dvo + dvr
    match calculate_fuel_mass dvo payload_mass engine with
    | .error e => .error e
    | .ok outbound_result =>
      match calculate_fuel_mass dvr payload_mass engine with
      | .error e => .error e
      | .ok return_result =>
        .ok
          { outbound_fuel := outbound_result.total_fuel
            return_fuel := some return_result.total_fuel
            total_fuel := outbound_result.total_fuel + return_result.total_fuel
            delta_v_outbound := dvo
            delta_v_return := some dvr
            total_delta_v := total
            engine_used := engine
            trajectory_type := "round_trip" }

/-- C2: for every valid destination planet, payload and engine for which
both legs stay under the ceilings, `calculate_round_trip_fuel` uses
outbound delta-v `abs (sqrt (GM_sun / r_dest) - sqrt (GM_sun / r_Earth))`,
return delta-v `outbound + escape_velocity`,
`total_delta_v = outbound + return`, stores the two legs' independent
`calculate_fuel_mass` totals as `outbound_fuel`/`return_fuel`, and its
`total_fuel` is their sum, with `trajectory_type = "round_trip"`. -/
theorem C2_round_trip_additivity
    (destination : Planet ℝ) (payload_mass : ℝ) (engine : Engine ℝ)
    (hp : 0 < payload_mass) (hi : 0 < engine.specific_impulse)
    (hesc : 0 ≤ destination.escape_velocity)
    (h50o : outbound_delta_v destination ≤ 50000)
    (h50r : return_delta_v destination ≤ 50000)
    (hmo : Real.exp (outbound_delta_v destination /
      (engine.specific_impulse * STANDARD_GRAVITY)) ≤ 1000)
    (hmr : Real.exp (return_delta_v destination /
      (engine.specific_impulse * STANDARD_GRAVITY)) ≤ 1000) :
    calculate_round_trip_fuel destination payload_mass engine =
      .ok
        { outbound_fuel :=
            payload_mass * (Real.exp (outbound_delta_v destination /
              (engine.specific_impulse * STANDARD_GRAVITY)) - 1)
          return_fuel :=
            some (payload_mass * (Real.exp (return_delta_v destination /
              (engine.specific_impulse * STANDARD_GRAVITY)) - 1))
          total_fuel :=
            payload_mass * (Real.exp (outbound_delta_v destination /
              (engine.specific_impulse * STANDARD_GRAVITY)) - 1) +
            payload_mass * (Real.exp (return_delta_v destination /
              (engine.specific_impulse * STANDARD_GRAVITY)) - 1)
          delta_v_outbound := outbound_delta_v destination
          delta_v_return := some (return_delta_v destination)
          total_delta_v := outbound_delta_v destination + return_delta_v destination
          engine_used := engine
          trajectory_type := "round_trip" } ∧
    (∀ r1 r2 rt : FuelResult ℝ,
      calculate_fuel_mass (outbound_delta_v destination) payload_mass engine = .ok r1 →
      calculate_fuel_mass (return_delta_v destination) payload_mass engine = .ok r2 →
      calculate_round_trip_fuel destination payload_mass engine = .ok rt →
      rt.outbound_fuel = r1.total_fuel ∧ rt.return_fuel = some r2.total_fuel ∧
        rt.total_fuel = r1.total_fuel + r2.total_fuel) := by
  have hdvo : 0 ≤ outbound_delta_v destination := abs_nonneg _
  have hdvr : 0 ≤ return_delta_v destination := by
    unfold return_delta_v
    linarith
  have e1 := calculate_fuel_mass_ok (outbound_delta_v destination)
    payload_mass engine hdvo hp hi h50o hmo
  have e2 := calculate_fuel_mass_ok (return_delta_v destination)
    payload_mass engine hdvr hp hi h50r hmr
  have hmain :
      calculate_round_trip_fuel destination payload_mass engine =
        .ok
          { outbound_fuel :=
              payload_mass * (Real.exp (outbound_delta_v destination /
                (engine.specific_impulse * STANDARD_GRAVITY)) - 1)
            return_fuel :=
              some (payload_mass * (Real.exp (return_delta_v destination /
                (engine.specific_impulse * STANDARD_GRAVITY)) - 1))
            total_fuel :=
              payload_mass * (Real.exp (outbound_delta_v destination /
                (engine.specific_impulse * STANDARD_GRAVITY)) - 1) +
              payload_mass * (Real.exp (return_delta_v destination /
                (engine.specific_impulse * STANDARD_GRAVITY)) - 1)
            delta_v_outbound := outbound_delta_v destination
            delta_v_return := some (return_delta_v destination)
            total_delta_v :=
              outbound_delta_v destination + return_delta_v destination
            engine_used := engine
            trajectory_type := "round_trip" } := by
    rw [calculate_round_trip_fuel, validate_round_trip_inputs]
    rw [if_neg (not_le.2 hp), if_neg (not_le.2 hi)]
    simp only [e1, e2]
  refine ⟨hmain, ?_⟩
  intro r1 r2 rt h1 h2 h3
  rw [h1] at e1
  rw [h2] at e2
  rw [h3] at hmain
  have hr1 := Except.ok.inj e1
  have hr2 := Except.ok.inj e2
  have hrt := Except.ok.inj hmain
  rw [hrt, hr1, hr2]
  exact ⟨rfl, rfl, rfl⟩

/-- A destination planet at Earth's model orbital radius (so the outbound
leg has delta-v zero) with a small escape velocity, used by the witness. -/
noncomputable def testRoundTripDest : Planet ℝ :=
  { name := "TestDest"
    mass := 1e24
    radius := 6e6
    orbital_radius := 1.496e11
    escape_velocity := 1000 }

/-- Witness for C2 at a destination sharing Earth's orbital radius
(outbound leg 0 m/s, return leg 1000 m/s), payload 500 kg, Isp 300 s. -/
theorem C2_round_trip_additivity_witness :
    calculate_round_trip_fuel testRoundTripDest 500 testChemEngine =
      .ok
        { outbound_fuel :=
            500 * (Real.exp (outbound_delta_v testRoundTripDest /
              (testChemEngine.specific_impulse * STANDARD_GRAVITY)) - 1)
          return_fuel :=
            some (500 * (Real.exp (return_delta_v testRoundTripDest /
              (testChemEngine.specific_impulse * STANDARD_GRAVITY)) - 1))
          total_fuel :=
            500 * (Real.exp (outbound_delta_v testRoundTripDest /
              (testChemEngine.specific_impulse * STANDARD_GRAVITY)) - 1) +
            500 * (Real.exp (return_delta_v testRoundTripDest /
              (testChemEngine.specific_impulse * STANDARD_GRAVITY)) - 1)
          delta_v_outbound := outbound_delta_v testRoundTripDest
          delta_v_return := some (return_delta_v testRoundTripDest)
          total_delta_v :=
            outbound_delta_v testRoundTripDest + return_delta_v testRoundTripDest
          engine_used := testChemEngine
          trajectory_type := "round_trip" } ∧
    (∀ r1 r2 rt : FuelResult ℝ,
      calculate_fuel_mass (outbound_delta_v testRoundTripDest) 500 testChemEngine = .ok r1 →
      calculate_fuel_mass (return_delta_v testRoundTripDest) 500 testChemEngine = .ok r2 →
      calculate_round_trip_fuel testRoundTripDest 500 testChemEngine = .ok rt →
      rt.outbound_fuel = r1.total_fuel ∧ rt.return_fuel = some r2.total_fuel ∧
        rt.total_fuel = r1.total_fuel + r2.total_fuel) := by
  have hzero : outbound_delta_v testRoundTripDest = 0 := by
    unfold outbound_delta_v testRoundTripDest EARTH_ORBITAL_RADIUS
    norm_num
  have hret : return_delta_v testRoundTripDest = 1000 := by
    rw [return_delta_v, hzero]
    simp only [testRoundTripDest]
    norm_num
  exact C2_round_trip_additivity testRoundTripDest 500 testChemEngine
    (by norm_num)
    (by simp only [testChemEngine, Engine.specific_impulse]; norm_num)
    (by simp only [testRoundTripDest]; norm_num)
    (by rw [hzero]; norm_num)
    (by rw [hret]; norm_num)
    (by
      rw [hzero]
      exact exp_le_thousand (by
        simp only [testChemEngine, Engine.specific_impulse, STANDARD_GRAVITY]
        norm_num))
    (by
      rw [hret]
      exact exp_le_thousand (by
        simp only [testChemEngine, Engine.specific_impulse, STANDARD_GRAVITY]
        norm_num))

/-- `GRAVITATIONAL_CONSTANT` from `utils/constants.py`. -/
noncomputable def GRAVITATIONAL_CONSTANT : ℝ := 6.67430e-11

/-- The eccentricity computed inside
`GravityAssistCalculator.calculate_deflection_angle`:
`sqrt (1 + approach_distance * v_infinity^2 / planet_mu)`, where a missing
`approach_distance` defaults to `planet.radius * 2.0`
(`min_approach_factor`). -/
noncomputable def eccentricity_value
    (v_infinity : ℝ) (planet : Planet ℝ) (approach_distance : Option ℝ) : ℝ :=
  Real.sqrt (1 +
    (approach_distance.getD (planet.radius * 2) * v_infinity ^ 2) /
      (GRAVITATIONAL_CONSTANT * planet.mass))

/-- The deflection angle value `2 * arcsin (1 / eccentricity)`. -/
noncomputable def deflection_value
    (v_infinity : ℝ) (planet : Planet ℝ) (approach_distance : Option ℝ) : ℝ :=
  2 * Real.arcsin (1 / eccentricity_value v_infinity planet approach_distance)

open Classical in
/-- `GravityAssistCalculator.calculate_deflection_angle`: reject
non-positive `v_infinity`; default the approach distance to
`planet.radius * 2.0`; reject an approach distance not exceeding the
planet radius; return `2 * arcsin (1 / eccentricity)`.  (The source also
computes `specific_energy` and `semi_major_axis`, both unused.) -/
noncomputable def calculate_deflection_angle
    (v_infinity : ℝ) (planet : Planet ℝ) (approach_distance : Option ℝ) :
    Except PyError ℝ :=
  if v_infinity ≤ 0 then .error .valueError
  else
    let ad := approach_distance.getD (planet.radius * 2)
    if ad ≤ planet.radius then .error .valueError
    else .ok (deflection_value v_infinity planet approach_distance)

open Classical in
/-- `GravityAssistCalculator.calculate_assist_delta_v`: reject
non-positive approach speed and a deflection angle outside `[0, π]`;
return `2 * v_approach * sin (deflection_angle / 2)`.  (The `planet`
argument is accepted but unused, as in the source.) -/
noncomputable def calculate_assist_delta_v
    (v_approach : ℝ) (planet : Planet ℝ) (deflection_angle : ℝ) :
    Except PyError ℝ :=
  if v_approach ≤ 0 then .error .valueError
  else if ¬ (0 ≤ deflection_angle ∧ deflection_angle ≤ Real.pi) then
    .error .valueError
  else .ok (2 * v_approach * Real.sin (deflection_angle / 2))

/-- Shared helper: under the deflection preconditions the eccentricity
exceeds 1. -/
theorem one_lt_eccentricity
    (v_infinity : ℝ) (planet : Planet ℝ) (approach_distance : Option ℝ)
    (hv : 0 < v_infinity) (hm : 0 < planet.mass) (hr : 0 < planet.radius)
    (had : ∀ x, approach_distance = some x → planet.radius < x) :
    1 < eccentricity_value v_infinity planet approach_distance := by
  have hadp : 0 < approach_distance.getD (planet.radius * 2) := by
    cases approach_distance with
    | none => simpa using by linarith
    | some x => exact hr.trans (had x rfl)
  have hG : (0:ℝ) < GRAVITATIONAL_CONSTANT := by
    norm_num [GRAVITATIONAL_CONSTANT]
  have hfrac :
      0 < (approach_distance.getD (planet.radius * 2) * v_infinity ^ 2) /
        (GRAVITATIONAL_CONSTANT * planet.mass) :=
    div_pos (mul_pos hadp (pow_pos hv 2)) (mul_pos hG hm)
  rw [eccentricity_value, show (1:ℝ) < _ ↔ _ from Real.lt_sqrt (by norm_num)]
  nlinarith

/-- Counterexample to C8: at deflection angle `0` (inside the accepted
domain `[0, π]`), `calculate_assist_delta_v` returns exactly `0`, which is
not positive. -/
theorem C8_assist_delta_v_counterexample :
    calculate_assist_delta_v 1 testRoundTripDest 0 = .ok 0 ∧ ¬ (0:ℝ) < 0 := by
  constructor
  · rw [calculate_assist_delta_v]
    rw [if_neg (by norm_num)]
    rw [if_neg (by
      simp only [not_not]
      exact ⟨le_rfl, Real.pi_pos.le⟩)]
    norm_num
  · exact lt_irrefl 0

/-- C8 as amended: whenever its preconditions hold,
`calculate_deflection_angle` succeeds with a value in `(0, π]`; for every
`v_approach > 0` and deflection angle in `[0, π]`,
`calculate_assist_delta_v` succeeds with a NON-NEGATIVE value at most
`2 * v_approach`, which is strictly positive whenever the deflection angle
is strictly positive (at angle exactly `0` it returns `0`). -/
theorem C8_angle_and_assist_bounds :
    (∀ (v : ℝ) (planet : Planet ℝ) (ad : Option ℝ),
      0 < v → 0 < planet.mass → 0 < planet.radius →
      (∀ x, ad = some x → planet.radius < x) →
      calculate_deflection_angle v planet ad = .ok (deflection_value v planet ad) ∧
        0 < deflection_value v planet ad ∧
        deflection_value v planet ad ≤ Real.pi) ∧
    (∀ (v : ℝ) (planet : Planet ℝ) (θ : ℝ),
      0 < v → 0 ≤ θ → θ ≤ Real.pi →
      calculate_assist_delta_v v planet θ = .ok (2 * v * Real.sin (θ / 2)) ∧
        0 ≤ 2 * v * Real.sin (θ / 2) ∧
        2 * v * Real.sin (θ / 2) ≤ 2 * v ∧
        (0 < θ → 0 < 2 * v * Real.sin (θ / 2))) := by
  constructor
  · intro v planet ad hv hm hr had
    have hecc := one_lt_eccentricity v planet ad hv hm hr had
    have heccpos : 0 < eccentricity_value v planet ad := by linarith
    have hinv1 : 1 / eccentricity_value v planet ad < 1 :=
      (div_lt_one heccpos).2 hecc
    have hinv0 : 0 < 1 / eccentricity_value v planet ad :=
      div_pos one_pos heccpos
    refine ⟨?_, ?_, ?_⟩
    · rw [calculate_deflection_angle]
      rw [if_neg (not_le.2 hv)]
      simp only
      rw [if_neg (not_le.2 (by
        cases ad with
        | none => simpa using by linarith
        | some x => simpa using had x rfl))]
    · rw [deflection_value]
      have := Real.arcsin_pos.2 hinv0
      linarith
    · rw [deflection_value]
      have := Real.arcsin_le_pi_div_two (1 / eccentricity_value v planet ad)
      linarith
  · intro v planet θ hv h0 hπ
    have hsin0 : 0 ≤ Real.sin (θ / 2) :=
      Real.sin_nonneg_of_nonneg_of_le_pi (by linarith)
        (by linarith [Real.pi_pos])
    have hsin1 : Real.sin (θ / 2) ≤ 1 := Real.sin_le_one _
    refine ⟨?_, ?_, ?_, ?_⟩
    · rw [calculate_assist_delta_v]
      rw [if_neg (not_le.2 hv), if_neg (by simp only [not_not]; exact ⟨h0, hπ⟩)]
    · positivity
    · nlinarith
    · intro hθ
      have hsinpos : 0 < Real.sin (θ / 2) :=
        Real.sin_pos_of_pos_of_lt_pi (by linarith)
          (by linarith [Real.pi_pos])
      positivity

/-- Witness for C8 as amended: the deflection part at `v_infinity = 1000`
on a concrete planet with the default approach distance, and the assist
part at `v_approach = 5`, deflection angle `1`. -/
theorem C8_angle_and_assist_bounds_witness :
    (calculate_deflection_angle 1000 testRoundTripDest none =
        .ok (deflection_value 1000 testRoundTripDest none) ∧
      0 < deflection_value 1000 testRoundTripDest none ∧
      deflection_value 1000 testRoundTripDest none ≤ Real.pi) ∧
    (calculate_assist_delta_v 5 testRoundTripDest 1 =
        .ok (2 * 5 * Real.sin (1 / 2)) ∧
      0 ≤ 2 * 5 * Real.sin ((1:ℝ) / 2) ∧
      2 * 5 * Real.sin ((1:ℝ) / 2) ≤ 2 * 5 ∧
      ((0:ℝ) < 1 → 0 < 2 * 5 * Real.sin ((1:ℝ) / 2))) := by
  constructor
  · exact C8_angle_and_assist_bounds.1 1000 testRoundTripDest none
      (by norm_num)
      (by simp only [testRoundTripDest]; norm_num)
      (by simp only [testRoundTripDest]; norm_num)
      (fun x h => by cases h)
  · exact C8_angle_and_assist_bounds.2 5 testRoundTripDest 1
      (by norm_num) (by norm_num)
      (by linarith [Real.pi_gt_three])

/-- C10: whenever the preconditions of `calculate_deflection_angle` hold
(positive `v_infinity`, positive planet mass and radius, approach distance
above the planet radius — including the default `2 * radius`), the
eccentricity `sqrt (1 + approach * v^2 / mu)` is strictly greater than 1,
the arcsine argument `1 / eccentricity` lies strictly inside `(0, 1)`, the
function succeeds (never a math-domain error), and its result is strictly
below `π`. -/
theorem C10_deflection_angle_domain_safe
    (v : ℝ) (planet : Planet ℝ) (ad : Option ℝ)
    (hv : 0 < v) (hm : 0 < planet.mass) (hr : 0 < planet.radius)
    (had : ∀ x, ad = some x → planet.radius < x) :
    1 < eccentricity_value v planet ad ∧
    0 < 1 / eccentricity_value v planet ad ∧
    1 / eccentricity_value v planet ad < 1 ∧
    calculate_deflection_angle v planet ad = .ok (deflection_value v planet ad) ∧
    deflection_value v planet ad < Real.pi := by
  have hecc := one_lt_eccentricity v planet ad hv hm hr had
  have heccpos : 0 < eccentricity_value v planet ad := by linarith
  have hinv1 : 1 / eccentricity_value v planet ad < 1 :=
    (div_lt_one heccpos).2 hecc
  have hinv0 : 0 < 1 / eccentricity_value v planet ad :=
    div_pos one_pos heccpos
  refine ⟨hecc, hinv0, hinv1, ?_, ?_⟩
  · rw [calculate_deflection_angle]
    rw [if_neg (not_le.2 hv)]
    simp only
    rw [if_neg (not_le.2 (by
      cases ad with
      | none => simpa using by linarith
      | some x => simpa using had x rfl))]
  · rw [deflection_value]
    have := Real.arcsin_lt_pi_div_two.2 hinv1
    linarith

/-- Witness for C10 at `v_infinity = 300` on a concrete planet with an
explicit approach distance above the planet radius. -/
theorem C10_deflection_angle_domain_safe_witness :
    1 < eccentricity_value 300 testRoundTripDest (some 7e6) ∧
    0 < 1 / eccentricity_value 300 testRoundTripDest (some 7e6) ∧
    1 / eccentricity_value 300 testRoundTripDest (some 7e6) < 1 ∧
    calculate_deflection_angle 300 testRoundTripDest (some 7e6) =
      .ok (deflection_value 300 testRoundTripDest (some 7e6)) ∧
    deflection_value 300 testRoundTripDest (some 7e6) < Real.pi :=
  C10_deflection_angle_domain_safe 300 testRoundTripDest (some 7e6)
    (by norm_num)
    (by simp only [testRoundTripDest]; norm_num)
    (by simp only [testRoundTripDest]; norm_num)
    (fun x h => by
      cases h
      simp only [testRoundTripDest]
      norm_num)

/-- `SOLAR_MASS` from `utils/constants.py`. -/
noncomputable def SOLAR_MASS : ℝ := 1.98847e30

/-- `TrajectoryCalculator.solar_mu`. -/
noncomputable def solar_mu : ℝ := GRAVITATIONAL_CONSTANT * SOLAR_MASS

/-- Python `str.lower()` restricted to the characters this repository
uses: ASCII `A`-`Z` and Cyrillic `А`-`Я`/`Ё` map to their lowercase
forms (+32 code points, `Ё` to `ё`); everything else is unchanged. -/
def pyLowerChar (c : Char) : Char :=
  if 'A' ≤ c ∧ c ≤ 'Z' then Char.ofNat (c.toNat + 32)
  else if 'А' ≤ c ∧ c ≤ 'Я' then Char.ofNat (c.toNat + 32)
  else if c = 'Ё' then 'ё'
  else c

/-- Python `str.lower()` on a whole string. -/
def pyLower (s : String) : String := String.mk (s.data.map pyLowerChar)

/-- The whitespace characters Python `str.strip()` removes (the ASCII
ones; no name in this repository carries exotic Unicode whitespace). -/
def pyIsSpace (c : Char) : Bool :=
  c == ' ' || c == '\t' || c == '\n' || c == '\r' || c == '\x0b' || c == '\x0c'

/-- Python `str.strip()`: drop leading and trailing whitespace. -/
def pyStrip (s : String) : String :=
  String.mk (((s.data.dropWhile pyIsSpace).reverse.dropWhile pyIsSpace).reverse)

/-- `AU` from `data/planets.py` (IAU 2012 astronomical unit). -/
noncomputable def AU : ℝ := 1.495978707e11

/-- `PLANETS_DATA["mercury"]`. -/
noncomputable def mercury : Planet ℝ :=
  { name := "Меркурий"
    mass := 3.3011e23
    radius := 2.4397e6
    orbital_radius := 0.387098 * AU
    escape_velocity := 4250 }

/-- `PLANETS_DATA["venus"]`. -/
noncomputable def venus : Planet ℝ :=
  { name := "Венера"
    mass := 4.8675e24
    radius := 6.0518e6
    orbital_radius := 0.723332 * AU
    escape_velocity := 10360 }

/-- `PLANETS_DATA["earth"]`. -/
noncomputable def earth : Planet ℝ :=
  { name := "Земля"
    mass := 5.9724e24
    radius := 6.3781e6
    orbital_radius := 1.000000 * AU
    escape_velocity := 11186 }

/-- `PLANETS_DATA["mars"]`. -/
noncomputable def mars : Planet ℝ :=
  { name := "Марс"
    mass := 6.4171e23
    radius := 3.3972e6
    orbital_radius := 1.523679 * AU
    escape_velocity := 5027 }

/-- `PLANETS_DATA["jupiter"]`. -/
noncomputable def jupiter : Planet ℝ :=
  { name := "Юпитер"
    mass := 1.8982e27
    radius := 7.1492e7
    orbital_radius := 5.204267 * AU
    escape_velocity := 59500 }

/-- `PLANETS_DATA["saturn"]`. -/
noncomputable def saturn : Planet ℝ :=
  { name := "Сатурн"
    mass := 5.6834e26
    radius := 6.0268e7
    orbital_radius := 9.582017 * AU
    escape_velocity := 35500 }

/-- `PLANETS_DATA["uranus"]`. -/
noncomputable def uranus : Planet ℝ :=
  { name := "Уран"
    mass := 8.6810e25
    radius := 2.5559e7
    orbital_radius := 19.229411 * AU
    escape_velocity := 21300 }

/-- `PLANETS_DATA["neptune"]`. -/
noncomputable def neptune : Planet ℝ :=
  { name := "Нептун"
    mass := 1.02413e26
    radius := 2.4764e7
    orbital_radius := 30.103658 * AU
    escape_velocity := 23500 }

/-- The literal `delta_v_table` of
`TrajectoryCalculator.calculate_delta_v` (km/s, keyed by lowercased
destination name). -/
noncomputable def delta_v_table : List (String × ℝ) :=
  [("меркурий", 3.2), ("венера", 3.5), ("марс", 3.6), ("юпитер", 8.8),
   ("сатурн", 9.0), ("уран", 11.2), ("нептун", 12.1)]

open Classical in
/-- `TrajectoryCalculator.calculate_hohmann_transfer`. -/
noncomputable def calculate_hohmann_transfer (r1 r2 : ℝ) :
    Except PyError (ℝ × ℝ) :=
  if r1 ≤ 0 ∨ r2 ≤ 0 then .error .valueError
  else if |r1 - r2| < 1000 then .ok (0, 0)
  else
    let v1 := Real.sqrt (solar_mu / r1)
    let v2 := Real.sqrt (solar_mu / r2)
    let a_transfer := (r1 + r2) / 2
    let v_transfer_1 := Real.sqrt (solar_mu * (2 / r1 - 1 / a_transfer))
    let v_transfer_2 := Real.sqrt (solar_mu * (2 / r2 - 1 / a_transfer))
    .ok (|v_transfer_1 - v1|, |v2 - v_transfer_2|)

open Classical in
/-- `TrajectoryCalculator.calculate_delta_v`: identical names short-circuit
to 0; both orbital radii must be positive; then the literal table (keyed
by the lowercased destination name, in km/s, converted by `* 1000`), and
otherwise the blended Hohmann fallback `(dv1 + dv2) * 0.6 + 3500`. -/
noncomputable def calculate_delta_v (origin destination : Planet ℝ) :
    Except PyError ℝ :=
  if origin.name = destination.name then .ok 0
  else if origin.orbital_radius ≤ 0 ∨ destination.orbital_radius ≤ 0 then
    .error .valueError
  else
    match List.lookup (pyLower destination.name) delta_v_table with
    | some v => .ok (v * 1000)
    | none =>
      match calculate_hohmann_transfer origin.orbital_radius
        destination.orbital_radius with
      | .error e => .error e
      | .ok p => .ok ((p.1 + p.2) * 0.6 + 3500)

/-- Shared helper: the table branch of `calculate_delta_v`. -/
theorem calculate_delta_v_table_hit
    (origin destination : Planet ℝ) (v : ℝ)
    (hname : origin.name ≠ destination.name)
    (ho : 0 < origin.orbital_radius) (hd : 0 < destination.orbital_radius)
    (hlook : List.lookup (pyLower destination.name) delta_v_table = some v) :
    calculate_delta_v origin destination = .ok (v * 1000) := by
  rw [calculate_delta_v, if_neg hname,
    if_neg (by push_neg; exact ⟨ho, hd⟩), hlook]

/-- C5: `calculate_delta_v` returns 0 for identical names; for the seven
non-Earth catalog destinations it returns the literal table value (km/s)
times 1000, keyed by the lowercased destination name; and for any
destination whose lowercased name is not in the table it returns the
blended Hohmann fallback `0.6 * (dv1 + dv2) + 3500`, requiring both
orbital radii positive. -/
theorem C5_delta_v_table_and_fallback :
    (∀ origin destination : Planet ℝ, origin.name = destination.name →
      calculate_delta_v origin destination = .ok 0) ∧
    (∀ origin : Planet ℝ, 0 < origin.orbital_radius →
      (origin.name ≠ "Меркурий" →
        calculate_delta_v origin mercury = .ok (3.2 * 1000)) ∧
      (origin.name ≠ "Венера" →
        calculate_delta_v origin venus = .ok (3.5 * 1000)) ∧
      (origin.name ≠ "Марс" →
        calculate_delta_v origin mars = .ok (3.6 * 1000)) ∧
      (origin.name ≠ "Юпитер" →
        calculate_delta_v origin jupiter = .ok (8.8 * 1000)) ∧
      (origin.name ≠ "Сатурн" →
        calculate_delta_v origin saturn = .ok (9.0 * 1000)) ∧
      (origin.name ≠ "Уран" →
        calculate_delta_v origin uranus = .ok (11.2 * 1000)) ∧
      (origin.name ≠ "Нептун" →
        calculate_delta_v origin neptune = .ok (12.1 * 1000))) ∧
    (∀ origin destination : Planet ℝ,
      origin.name ≠ destination.name →
      0 < origin.orbital_radius → 0 < destination.orbital_radius →
      List.lookup (pyLower destination.name) delta_v_table = none →
      calculate_delta_v origin destination =
        (calculate_hohmann_transfer origin.orbital_radius
            destination.orbital_radius).map
          (fun p => (p.1 + p.2) * 0.6 + 3500)) := by
  have hAU : (0:ℝ) < AU := by norm_num [AU]
  refine ⟨?_, ?_, ?_⟩
  · intro origin destination h
    rw [calculate_delta_v, if_pos h]
  · intro origin ho
    refine ⟨?_, ?_, ?_, ?_, ?_, ?_, ?_⟩ <;>
      intro hname <;>
        exact calculate_delta_v_table_hit origin _ _ hname ho
          (by norm_num [mercury, venus, mars, jupiter, saturn, uranus,
            neptune, AU]) rfl
  · intro origin destination hname ho hd hlook
    rw [calculate_delta_v, if_neg hname,
      if_neg (by push_neg; exact ⟨ho, hd⟩), hlook]
    cases h : calculate_hohmann_transfer origin.orbital_radius
        destination.orbital_radius with
    | error e => rfl
    | ok p => rfl

/-- Witness for C5: Earth to the catalog Mars hits the table (3600 m/s),
Mars to itself short-circuits to 0, and Earth to a non-catalog destination
takes the Hohmann fallback. -/
theorem C5_delta_v_table_and_fallback_witness :
    calculate_delta_v mars mars = .ok 0 ∧
    calculate_delta_v earth mars = .ok (3.6 * 1000) ∧
    calculate_delta_v earth testRoundTripDest =
      (calculate_hohmann_transfer earth.orbital_radius
          testRoundTripDest.orbital_radius).map
        (fun p => (p.1 + p.2) * 0.6 + 3500) := by
  refine ⟨?_, ?_, ?_⟩
  · exact C5_delta_v_table_and_fallback.1 mars mars rfl
  · exact ((C5_delta_v_table_and_fallback.2.1 earth
      (by norm_num [earth, AU])).2.2.1 (by decide))
  · exact C5_delta_v_table_and_fallback.2.2 earth testRoundTripDest
      (by decide) (by norm_num [earth, AU])
      (by norm_num [testRoundTripDest]) rfl

/-- Helper for the optional-field checks of `FuelResult.__post_init__`:
`x is not None and x < 0`. -/
def optIsNeg {α : Type} [LinearOrder α] [Zero α] (o : Option α) : Bool :=
  match o with
  | some x => decide (x < 0)
  | none => false

/-- `FuelResult.__post_init__` from `models/mission.py`, as a fallible
constructor: it checks ONLY the non-negativity of the six numeric fields
(each optional field only when present) and performs no cross-field
consistency check. -/
def mkFuelResult {α : Type} [LinearOrder α] [Zero α]
    (outbound_fuel : α) (return_fuel : Option α) (total_fuel : α)
    (delta_v_outbound : α) (delta_v_return : Option α) (total_delta_v : α)
    (engine_used : Engine α) (trajectory_type : String) :
    Except PyError (FuelResult α) :=
  if outbound_fuel < 0 then .error .valueError
  else if optIsNeg return_fuel then .error .valueError
  else if total_fuel < 0 then .error .valueError
  else if delta_v_outbound < 0 then .error .valueError
  else if optIsNeg delta_v_return then .error .valueError
  else if total_delta_v < 0 then .error .valueError
  else .ok
    { outbound_fuel := outbound_fuel
      return_fuel := return_fuel
      total_fuel := total_fuel
      delta_v_outbound := delta_v_outbound
      delta_v_return := delta_v_return
      total_delta_v := total_delta_v
      engine_used := engine_used
      trajectory_type := trajectory_type }

/-- A catalog-style chemical engine over `ℚ` for the serialization and
invariant claims. -/
def qChemEngine : Engine ℚ := .chemical "РД-180" 311.3 3827000 "RP-1/LOX"

/-- Counterexample to C9: a `FuelResult` with `return_fuel` present but
`delta_v_return` absent is accepted at construction — the pairing
invariant is not enforced by `__post_init__`. -/
theorem C9_pairing_counterexample :
    mkFuelResult (1:ℚ) (some 5) 6 2 none 2 qChemEngine "round_trip" =
      .ok
        { outbound_fuel := 1
          return_fuel := some 5
          total_fuel := 6
          delta_v_outbound := 2
          delta_v_return := none
          total_delta_v := 2
          engine_used := qChemEngine
          trajectory_type := "round_trip" } ∧
    Option.isSome (some (5:ℚ)) = true ∧
    Option.isSome (none : Option ℚ) = false := by
  refine ⟨rfl, rfl, rfl⟩

/-- C9 as amended: construction of a `FuelResult` (the models-layer
`__post_init__`) succeeds if and only if every numeric field present is
non-negative; the both-present-or-both-absent pairing of `return_fuel`
and `delta_v_return` is NOT checked at construction. -/
theorem C9_construction_checks_nonnegativity_only
    (of : ℚ) (rf : Option ℚ) (tf dvo : ℚ) (dvr : Option ℚ) (tdv : ℚ)
    (e : Engine ℚ) (tt : String) :
    mkFuelResult of rf tf dvo dvr tdv e tt =
      .ok
        { outbound_fuel := of
          return_fuel := rf
          total_fuel := tf
          delta_v_outbound := dvo
          delta_v_return := dvr
          total_delta_v := tdv
          engine_used := e
          trajectory_type := tt } ↔
    (0 ≤ of ∧ (∀ x ∈ rf, 0 ≤ x) ∧ 0 ≤ tf ∧ 0 ≤ dvo ∧
      (∀ x ∈ dvr, 0 ≤ x) ∧ 0 ≤ tdv) := by
  cases rf with
  | none =>
    cases dvr with
    | none =>
      unfold mkFuelResult optIsNeg
      split_ifs <;> simp_all [not_lt]
    | some y =>
      unfold mkFuelResult optIsNeg
      split_ifs <;> simp_all [not_lt]
  | some x =>
    cases dvr with
    | none =>
      unfold mkFuelResult optIsNeg
      split_ifs <;> simp_all [not_lt]
    | some y =>
      unfold mkFuelResult optIsNeg
      split_ifs <;> simp_all [not_lt]

/-- `ConfidenceLevel` from `models/validation.py`. -/
inductive ConfLevel where
  | high
  | medium
  | low
  deriving DecidableEq, Repr

/-- The branch taken when building a `ValidationResult` note.  The source
builds formatted Russian strings; the model abstracts each distinct note
to its branch (below band / above band / matched / no data), which is all
the specification talks about. -/
inductive NoteKind where
  | noReferenceData
  | emptyMissionList
  | matchesReference
  | belowBand
  | aboveBand
  deriving DecidableEq, Repr

/-- `MissionReference` from `models/validation.py`, restricted to the
fields `validate_delta_v` reads (`name`, `agency`, `year`, `delta_v`); the
mission/trajectory type, sources and notes fields do not influence the
validation verdict. -/
structure MissionReference where
  name : String
  agency : String
  year : ℕ
  delta_v : ℚ
  deriving DecidableEq, Repr

/-- `ValidationResult` from `models/validation.py` (the `sources` list is
omitted from the model: the source passes source strings through a Python
`set`, whose iteration order is unspecified). -/
structure ValidationResult where
  valid : Bool
  confidence : ConfLevel
  reference_mission : Option String
  noteKind : NoteKind
  deviation_percent : Option ℚ
  deriving DecidableEq, Repr

/-- `ValidationConfig.tolerance_percent` default. -/
def tolerance_percent : ℚ := 15.0

/-- Reference mission Juno (NASA, 2011, 8800 m/s). -/
def refJuno : MissionReference :=
  { name := "Juno", agency := "NASA", year := 2011, delta_v := 8800 }

/-- Reference mission Galileo (NASA, 1989, 8500 m/s). -/
def refGalileo : MissionReference :=
  { name := "Galileo", agency := "NASA", year := 1989, delta_v := 8500 }

/-- Reference mission Europa Clipper (NASA, 2024, 8900 m/s). -/
def refEuropaClipper : MissionReference :=
  { name := "Europa Clipper", agency := "NASA", year := 2024, delta_v := 8900 }

/-- Reference mission Perseverance (NASA, 2020, 3500 m/s). -/
def refPerseverance : MissionReference :=
  { name := "Perseverance", agency := "NASA", year := 2020, delta_v := 3500 }

/-- Reference mission Curiosity/MSL (NASA, 2011, 3600 m/s). -/
def refCuriosity : MissionReference :=
  { name := "Curiosity (MSL)", agency := "NASA", year := 2011, delta_v := 3600 }

/-- Reference mission InSight (NASA, 2018, 3400 m/s). -/
def refInSight : MissionReference :=
  { name := "InSight", agency := "NASA", year := 2018, delta_v := 3400 }

/-- Reference mission Cassini-Huygens (NASA/ESA, 1997, 8200 m/s). -/
def refCassini : MissionReference :=
  { name := "Cassini-Huygens", agency := "NASA/ESA", year := 1997, delta_v := 8200 }

/-- Reference mission Parker Solar Probe (NASA, 2018, 3500 m/s). -/
def refParker : MissionReference :=
  { name := "Parker Solar Probe", agency := "NASA", year := 2018, delta_v := 3500 }

/-- Reference mission BepiColombo (ESA/JAXA, 2018, 3600 m/s). -/
def refBepiColombo : MissionReference :=
  { name := "BepiColombo", agency := "ESA/JAXA", year := 2018, delta_v := 3600 }

/-- Reference mission MESSENGER (NASA, 2004, 5500 m/s). -/
def refMessenger : MissionReference :=
  { name := "MESSENGER", agency := "NASA", year := 2004, delta_v := 5500 }

/-- Reference mission Voyager 2 at Uranus (NASA, 1977, 11200 m/s). -/
def refVoyagerUranus : MissionReference :=
  { name := "Voyager 2", agency := "NASA", year := 1977, delta_v := 11200 }

/-- Reference mission Voyager 2 at Neptune (NASA, 1977, 12100 m/s). -/
def refVoyagerNeptune : MissionReference :=
  { name := "Voyager 2", agency := "NASA", year := 1977, delta_v := 12100 }

/-- The reference-mission database built by the `MissionValidator`
constructor (delta-v in m/s, keyed by lowercased Russian destination
name). -/
def reference_missions : List (String × List MissionReference) :=
  [("юпитер", [refJuno, refGalileo, refEuropaClipper]),
   ("марс", [refPerseverance, refCuriosity, refInSight]),
   ("сатурн", [refCassini]),
   ("венера", [refParker, refBepiColombo]),
   ("меркурий", [refMessenger]),
   ("уран", [refVoyagerUranus]),
   ("нептун", [refVoyagerNeptune])]

/-- `min(reference_values)` over the non-empty list `m :: ms`. -/
def listMinQ (m : ℚ) (ms : List ℚ) : ℚ := ms.foldl min m

/-- `max(reference_values)` over the non-empty list `m :: ms`. -/
def listMaxQ (m : ℚ) (ms : List ℚ) : ℚ := ms.foldl max m

/-- Python `min(missions, key=lambda m: abs(m.delta_v - calculated))`:
keeps the FIRST mission attaining the minimal absolute distance. -/
def closestRef (calcv : ℚ) (m : MissionReference) (ms : List MissionReference) :
    MissionReference :=
  ms.foldl
    (fun best cand =>
      if |cand.delta_v - calcv| < |best.delta_v - calcv| then cand else best) m

/-- `deviation_percent` of the closest reference mission. -/
def deviationPercent (calcv : ℚ) (closest : MissionReference) : ℚ :=
  |calcv - closest.delta_v| / closest.delta_v * 100

/-- `min_allowed` for the non-empty mission list `m :: ms`. -/
def minAllowed (m : MissionReference) (ms : List MissionReference) : ℚ :=
  listMinQ m.delta_v (ms.map fun x => x.delta_v) * (1 - tolerance_percent / 100)

/-- `max_allowed` for the non-empty mission list `m :: ms`. -/
def maxAllowed (m : MissionReference) (ms : List MissionReference) : ℚ :=
  listMaxQ m.delta_v (ms.map fun x => x.delta_v) * (1 + tolerance_percent / 100)

/-- `MissionValidator.validate_delta_v` (default configuration): reject
negative delta-v and empty/whitespace planet names; lowercase and strip
the name; return the valid/low-confidence "no data" result when the key
has no entry (or an empty entry); otherwise band-check against the
tolerance-expanded min/max of the reference delta-v values, citing the
closest mission. -/
def validate_delta_v (planet_name : String) (calculated_delta_v : ℚ) :
    Except PyError ValidationResult :=
  if calculated_delta_v < 0 then .error .valueError
  else if planet_name = "" ∨ pyStrip planet_name = "" then .error .valueError
  else
    match List.lookup (pyStrip (pyLower planet_name)) reference_missions with
    | none =>
      .ok
        { valid := true
          confidence := .low
          reference_mission := none
          noteKind := .noReferenceData
          deviation_percent := none }
    | some [] =>
      .ok
        { valid := true
          confidence := .low
          reference_mission := none
          noteKind := .emptyMissionList
          deviation_percent := none }
    | some (m :: ms) =>
      if minAllowed m ms ≤ calculated_delta_v ∧
          calculated_delta_v ≤ maxAllowed m ms then
        .ok
          { valid := true
            confidence := .high
            reference_mission := some (closestRef calculated_delta_v m ms).name
            noteKind := .matchesReference
            deviation_percent :=
              some (deviationPercent calculated_delta_v
                (closestRef calculated_delta_v m ms)) }
      else if calculated_delta_v < minAllowed m ms then
        .ok
          { valid := false
            confidence := .low
            reference_mission := some (closestRef calculated_delta_v m ms).name
            noteKind := .belowBand
            deviation_percent :=
              some (deviationPercent calculated_delta_v
                (closestRef calculated_delta_v m ms)) }
      else
        .ok
          { valid := false
            confidence := .low
            reference_mission := some (closestRef calculated_delta_v m ms).name
            noteKind := .aboveBand
            deviation_percent :=
              some (deviationPercent calculated_delta_v
                (closestRef calculated_delta_v m ms)) }

/-- Counterexample to C6: the reference database is keyed by RUSSIAN
planet names, so `validate_delta_v "mars" 3500` finds no reference data
and returns the valid/LOW-confidence "no data" result, citing no mission —
not the valid/high-confidence result the claim requires. -/
theorem C6_mars_key_counterexample :
    validate_delta_v "mars" 3500 =
      .ok
        { valid := true
          confidence := .low
          reference_mission := none
          noteKind := .noReferenceData
          deviation_percent := none } ∧
    ConfLevel.low ≠ ConfLevel.high := by
  refine ⟨by rfl, by decide⟩

/-- Shared helper: the banded branches of `validate_delta_v` for a planet
key with a non-empty reference list. -/
theorem validate_delta_v_banded
    (planet_name : String) (dv : ℚ) (m : MissionReference)
    (ms : List MissionReference)
    (h1 : ¬ dv < 0) (h2 : ¬ (planet_name = "" ∨ pyStrip planet_name = ""))
    (hlook : List.lookup (pyStrip (pyLower planet_name)) reference_missions =
      some (m :: ms)) :
    (minAllowed m ms ≤ dv ∧ dv ≤ maxAllowed m ms →
      validate_delta_v planet_name dv =
        .ok
          { valid := true
            confidence := .high
            reference_mission := some (closestRef dv m ms).name
            noteKind := .matchesReference
            deviation_percent :=
              some (deviationPercent dv (closestRef dv m ms)) }) ∧
    (¬ (minAllowed m ms ≤ dv ∧ dv ≤ maxAllowed m ms) →
      dv < minAllowed m ms →
      validate_delta_v planet_name dv =
        .ok
          { valid := false
            confidence := .low
            reference_mission := some (closestRef dv m ms).name
            noteKind := .belowBand
            deviation_percent :=
              some (deviationPercent dv (closestRef dv m ms)) }) ∧
    (¬ (minAllowed m ms ≤ dv ∧ dv ≤ maxAllowed m ms) →
      ¬ dv < minAllowed m ms →
      validate_delta_v planet_name dv =
        .ok
          { valid := false
            confidence := .low
            reference_mission := some (closestRef dv m ms).name
            noteKind := .aboveBand
            deviation_percent :=
              some (deviationPercent dv (closestRef dv m ms)) }) := by
  have base :
      validate_delta_v planet_name dv =
        (if minAllowed m ms ≤ dv ∧ dv ≤ maxAllowed m ms then
          .ok
            { valid := true
              confidence := .high
              reference_mission := some (closestRef dv m ms).name
              noteKind := .matchesReference
              deviation_percent :=
                some (deviationPercent dv (closestRef dv m ms)) }
        else if dv < minAllowed m ms then
          .ok
            { valid := false
              confidence := .low
              reference_mission := some (closestRef dv m ms).name
              noteKind := .belowBand
              deviation_percent :=
                some (deviationPercent dv (closestRef dv m ms)) }
        else
          .ok
            { valid := false
              confidence := .low
              reference_mission := some (closestRef dv m ms).name
              noteKind := .aboveBand
              deviation_percent :=
                some (deviationPercent dv (closestRef dv m ms)) }) := by
    unfold validate_delta_v
    rw [if_neg h1, if_neg h2, hlook]
  refine ⟨?_, ?_, ?_⟩
  · intro hband
    rw [base, if_pos hband]
  · intro hnb hlt
    rw [base, if_neg hnb, if_pos hlt]
  · intro hnb hnlt
    rw [base, if_neg hnb, if_neg hnlt]

/-- Shared helper: the "no reference data" branch of `validate_delta_v`. -/
theorem validate_delta_v_missing
    (planet_name : String) (dv : ℚ)
    (h1 : ¬ dv < 0) (h2 : ¬ (planet_name = "" ∨ pyStrip planet_name = ""))
    (hlook : List.lookup (pyStrip (pyLower planet_name)) reference_missions =
      none) :
    validate_delta_v planet_name dv =
      .ok
        { valid := true
          confidence := .low
          reference_mission := none
          noteKind := .noReferenceData
          deviation_percent := none } := by
  unfold validate_delta_v
  rw [if_neg h1, if_neg h2, hlook]

/-- Shared computation: the Mars tolerance band is [2890, 4140]. -/
theorem mars_band :
    minAllowed refPerseverance [refCuriosity, refInSight] = 2890 ∧
    maxAllowed refPerseverance [refCuriosity, refInSight] = 4140 := by
  constructor
  · unfold minAllowed listMinQ
    simp only [List.map, List.foldl, refPerseverance, refCuriosity, refInSight]
    rw [min_eq_left (by norm_num : (3500:ℚ) ≤ 3600)]
    rw [min_eq_right (by norm_num : (3400:ℚ) ≤ 3500)]
    norm_num [tolerance_percent]
  · unfold maxAllowed listMaxQ
    simp only [List.map, List.foldl, refPerseverance, refCuriosity, refInSight]
    rw [max_eq_right (by norm_num : (3500:ℚ) ≤ 3600)]
    rw [max_eq_left (by norm_num : (3400:ℚ) ≤ 3600)]
    norm_num [tolerance_percent]

/-- C6 as amended: `validate_delta_v` applies the default 15% tolerance
band around the min/max reference delta-v for the planet's key (which is
the lowercased, stripped — hence RUSSIAN — planet name): inside the band
it returns valid/high-confidence citing the closest reference mission;
below (respectively above) the band it returns invalid/low-confidence
with the below-band (above-band) note; with no reference entries it
returns the valid/low-confidence "no data" result.  In particular
`validate_delta_v "марс" 3500` is valid/high-confidence citing
Perseverance, and `validate_delta_v "марс" 100000` is
invalid/low-confidence above the historical band. -/
theorem C6_band_validation :
    (∀ (planet_name : String) (dv : ℚ) (m : MissionReference)
        (ms : List MissionReference),
      ¬ dv < 0 → ¬ (planet_name = "" ∨ pyStrip planet_name = "") →
      List.lookup (pyStrip (pyLower planet_name)) reference_missions =
        some (m :: ms) →
      ((minAllowed m ms ≤ dv ∧ dv ≤ maxAllowed m ms →
        validate_delta_v planet_name dv =
          .ok
            { valid := true
              confidence := .high
              reference_mission := some (closestRef dv m ms).name
              noteKind := .matchesReference
              deviation_percent :=
                some (deviationPercent dv (closestRef dv m ms)) }) ∧
       (¬ (minAllowed m ms ≤ dv ∧ dv ≤ maxAllowed m ms) →
        dv < minAllowed m ms →
        validate_delta_v planet_name dv =
          .ok
            { valid := false
              confidence := .low
              reference_mission := some (closestRef dv m ms).name
              noteKind := .belowBand
              deviation_percent :=
                some (deviationPercent dv (closestRef dv m ms)) }) ∧
       (¬ (minAllowed m ms ≤ dv ∧ dv ≤ maxAllowed m ms) →
        ¬ dv < minAllowed m ms →
        validate_delta_v planet_name dv =
          .ok
            { valid := false
              confidence := .low
              reference_mission := some (closestRef dv m ms).name
              noteKind := .aboveBand
              deviation_percent :=
                some (deviationPercent dv (closestRef dv m ms)) }))) ∧
    (∀ (planet_name : String) (dv : ℚ),
      ¬ dv < 0 → ¬ (planet_name = "" ∨ pyStrip planet_name = "") →
      List.lookup (pyStrip (pyLower planet_name)) reference_missions = none →
      validate_delta_v planet_name dv =
        .ok
          { valid := true
            confidence := .low
            reference_mission := none
            noteKind := .noReferenceData
            deviation_percent := none }) ∧
    validate_delta_v "марс" 3500 =
      .ok
        { valid := true
          confidence := .high
          reference_mission := some "Perseverance"
          noteKind := .matchesReference
          deviation_percent := some 0 } ∧
    validate_delta_v "марс" 100000 =
      .ok
        { valid := false
          confidence := .low
          reference_mission := some "Curiosity (MSL)"
          noteKind := .aboveBand
          deviation_percent := some (24100 / 9) } := by
  obtain ⟨hmin, hmax⟩ := mars_band
  refine ⟨?_, ?_, ?_, ?_⟩
  · intro planet_name dv m ms h1 h2 hlook
    exact validate_delta_v_banded planet_name dv m ms h1 h2 hlook
  · intro planet_name dv h1 h2 hlook
    exact validate_delta_v_missing planet_name dv h1 h2 hlook
  · have hlook : List.lookup (pyStrip (pyLower "марс")) reference_missions =
        some (refPerseverance :: [refCuriosity, refInSight]) := rfl
    have hclosest :
        closestRef 3500 refPerseverance [refCuriosity, refInSight] =
          refPerseverance := by
      unfold closestRef
      simp only [List.foldl]
      have c1 : ¬ |refCuriosity.delta_v - (3500:ℚ)| <
          |refPerseverance.delta_v - 3500| := by
        norm_num [refCuriosity, refPerseverance]
      rw [if_neg c1]
      have c2 : ¬ |refInSight.delta_v - (3500:ℚ)| <
          |refPerseverance.delta_v - 3500| := by
        norm_num [refInSight, refPerseverance]
      rw [if_neg c2]
    have h := (validate_delta_v_banded "марс" 3500 refPerseverance
      [refCuriosity, refInSight] (by norm_num) (by decide) hlook).1
      (by rw [hmin, hmax]; norm_num)
    rw [h, hclosest]
    have hdev : deviationPercent 3500 refPerseverance = 0 := by
      norm_num [deviationPercent, refPerseverance]
    rw [hdev]
    rfl
  · have hlook : List.lookup (pyStrip (pyLower "марс")) reference_missions =
        some (refPerseverance :: [refCuriosity, refInSight]) := rfl
    have hclosest :
        closestRef 100000 refPerseverance [refCuriosity, refInSight] =
          refCuriosity := by
      unfold closestRef
      simp only [List.foldl]
      have c1 : |refCuriosity.delta_v - (100000:ℚ)| <
          |refPerseverance.delta_v - 100000| := by
        norm_num [refCuriosity, refPerseverance]
      rw [if_pos c1]
      have c2 : ¬ |refInSight.delta_v - (100000:ℚ)| <
          |refCuriosity.delta_v - 100000| := by
        norm_num [refInSight, refCuriosity]
      rw [if_neg c2]
    have h := (validate_delta_v_banded "марс" 100000 refPerseverance
      [refCuriosity, refInSight] (by norm_num) (by decide) hlook).2.2
      (by rw [hmin, hmax]; norm_num) (by rw [hmin]; norm_num)
    rw [h, hclosest]
    have hdev : deviationPercent 100000 refCuriosity = 24100 / 9 := by
      norm_num [deviationPercent, refCuriosity]
    rw [hdev]
    rfl

/-- Witness for C6 as amended: the in-band branch at Jupiter's key with
delta-v 8800 (citing Juno) and the no-data branch at a planet absent from
the database. -/
theorem C6_band_validation_witness :
    validate_delta_v "юпитер" 8800 =
      .ok
        { valid := true
          confidence := .high
          reference_mission :=
            some (closestRef 8800 refJuno [refGalileo, refEuropaClipper]).name
          noteKind := .matchesReference
          deviation_percent :=
            some (deviationPercent 8800
              (closestRef 8800 refJuno [refGalileo, refEuropaClipper])) } ∧
    validate_delta_v "плутон" 5000 =
      .ok
        { valid := true
          confidence := .low
          reference_mission := none
          noteKind := .noReferenceData
          deviation_percent := none } := by
  have hmin : minAllowed refJuno [refGalileo, refEuropaClipper] = 7225 := by
    unfold minAllowed listMinQ
    simp only [List.map, List.foldl, refJuno, refGalileo, refEuropaClipper]
    rw [min_eq_right (by norm_num : (8500:ℚ) ≤ 8800)]
    rw [min_eq_left (by norm_num : (8500:ℚ) ≤ 8900)]
    norm_num [tolerance_percent]
  have hmax : maxAllowed refJuno [refGalileo, refEuropaClipper] = 10235 := by
    unfold maxAllowed listMaxQ
    simp only [List.map, List.foldl, refJuno, refGalileo, refEuropaClipper]
    rw [max_eq_left (by norm_num : (8500:ℚ) ≤ 8800)]
    rw [max_eq_right (by norm_num : (8800:ℚ) ≤ 8900)]
    norm_num [tolerance_percent]
  constructor
  · exact (C6_band_validation.1 "юпитер" 8800 refJuno
      [refGalileo, refEuropaClipper]
      (by norm_num) (by decide) (by rfl)).1
      (by rw [hmin, hmax]; norm_num)
  · exact C6_band_validation.2.1 "плутон" 5000
      (by norm_num) (by decide) (by rfl)

/-- A decimal digit as a character (`'0'`-`'9'`). -/
def digitChar (n : ℕ) : Char := Char.ofNat (48 + n % 10)

/-- Whether a character is a decimal digit. -/
def isDigitChar (c : Char) : Bool := 48 ≤ c.toNat && c.toNat ≤ 57

/-- The numeric value of a digit character. -/
def digitVal (c : Char) : ℕ := c.toNat - 48

/-- `digitChar` always yields a digit character. -/
theorem isDigitChar_digitChar (n : ℕ) : isDigitChar (digitChar n) = true := by
  unfold digitChar
  have h : n % 10 < 10 := Nat.mod_lt _ (by norm_num)
  interval_cases h : n % 10 <;> decide

/-- `digitVal` inverts `digitChar` modulo 10. -/
theorem digitVal_digitChar (n : ℕ) : digitVal (digitChar n) = n % 10 := by
  unfold digitChar
  have h : n % 10 < 10 := Nat.mod_lt _ (by norm_num)
  interval_cases h : n % 10 <;> decide

/-- A naive (timezone-free) `datetime.datetime` value, as produced by
`datetime.now()` and stored in `Mission.created_at`. -/
structure DateTime where
  year : ℕ
  month : ℕ
  day : ℕ
  hour : ℕ
  minute : ℕ
  second : ℕ
  microsecond : ℕ
  deriving DecidableEq, Repr

/-- The Gregorian leap-year rule used by `datetime`. -/
def isLeapYear (y : ℕ) : Bool := (y % 4 == 0 && y % 100 != 0) || (y % 400 == 0)

/-- Days in a month of a given year, as `datetime` validates them. -/
def daysInMonth (y m : ℕ) : ℕ :=
  if m = 2 then (if isLeapYear y then 29 else 28)
  else if m = 4 ∨ m = 6 ∨ m = 9 ∨ m = 11 then 30
  else 31

/-- The field ranges a constructible Python `datetime` satisfies. -/
def DateTime.valid (d : DateTime) : Prop :=
  1 ≤ d.year ∧ d.year ≤ 9999 ∧ 1 ≤ d.month ∧ d.month ≤ 12 ∧
  1 ≤ d.day ∧ d.day ≤ daysInMonth d.year d.month ∧
  d.hour ≤ 23 ∧ d.minute ≤ 59 ∧ d.second ≤ 59 ∧ d.microsecond ≤ 999999

instance (d : DateTime) : Decidable d.valid := by
  unfold DateTime.valid
  infer_instance

/-- `datetime.isoformat()` for a naive datetime:
`YYYY-MM-DDTHH:MM:SS`, with `.ffffff` appended exactly when the
microsecond field is non-zero. -/
def toIsoChars (d : DateTime) : List Char :=
  digitChar (d.year / 1000) :: digitChar (d.year / 100) ::
  digitChar (d.year / 10) :: digitChar d.year ::
  '-' :: digitChar (d.month / 10) :: digitChar d.month ::
  '-' :: digitChar (d.day / 10) :: digitChar d.day ::
  'T' :: digitChar (d.hour / 10) :: digitChar d.hour ::
  ':' :: digitChar (d.minute / 10) :: digitChar d.minute ::
  ':' :: digitChar (d.second / 10) :: digitChar d.second ::
  (if d.microsecond = 0 then []
   else '.' :: digitChar (d.microsecond / 100000) ::
     digitChar (d.microsecond / 10000) :: digitChar (d.microsecond / 1000) ::
     digitChar (d.microsecond / 100) :: digitChar (d.microsecond / 10) ::
     digitChar d.microsecond :: [])

/-- `datetime.fromisoformat` restricted to the exact shapes `isoformat`
produces for naive datetimes (the source only ever parses strings this
repository itself wrote); it validates the same calendar field ranges the
`datetime` constructor enforces. -/
def fromIsoChars (l : List Char) : Option DateTime :=
  match l with
  | y1 :: y2 :: y3 :: y4 :: s1 :: mo1 :: mo2 :: s2 :: d1 :: d2 :: s3 ::
      h1 :: h2 :: s4 :: mi1 :: mi2 :: s5 :: se1 :: se2 :: rest =>
    if s1 = '-' ∧ s2 = '-' ∧ s3 = 'T' ∧ s4 = ':' ∧ s5 = ':' ∧
        (isDigitChar y1 && isDigitChar y2 && isDigitChar y3 && isDigitChar y4 &&
         isDigitChar mo1 && isDigitChar mo2 && isDigitChar d1 && isDigitChar d2 &&
         isDigitChar h1 && isDigitChar h2 && isDigitChar mi1 && isDigitChar mi2 &&
         isDigitChar se1 && isDigitChar se2) = true then
      let y := ((digitVal y1 * 10 + digitVal y2) * 10 + digitVal y3) * 10 +
        digitVal y4
      let mo := digitVal mo1 * 10 + digitVal mo2
      let da := digitVal d1 * 10 + digitVal d2
      let h := digitVal h1 * 10 + digitVal h2
      let mi := digitVal mi1 * 10 + digitVal mi2
      let se := digitVal se1 * 10 + digitVal se2
      if 1 ≤ y ∧ 1 ≤ mo ∧ mo ≤ 12 ∧ 1 ≤ da ∧ da ≤ daysInMonth y mo ∧
          h ≤ 23 ∧ mi ≤ 59 ∧ se ≤ 59 then
        match rest with
        | [] => some ⟨y, mo, da, h, mi, se, 0⟩
        | '.' :: u1 :: u2 :: u3 :: u4 :: u5 :: u6 :: [] =>
          if (isDigitChar u1 && isDigitChar u2 && isDigitChar u3 &&
              isDigitChar u4 && isDigitChar u5 && isDigitChar u6) = true then
            some ⟨y, mo, da, h, mi, se,
              ((((digitVal u1 * 10 + digitVal u2) * 10 + digitVal u3) * 10 +
                digitVal u4) * 10 + digitVal u5) * 10 + digitVal u6⟩
          else none
        | _ => none
      else none
    else none
  | _ => none

/-- Every month has at most 31 days. -/
theorem daysInMonth_le (y m : ℕ) : daysInMonth y m ≤ 31 := by
  unfold daysInMonth
  split_ifs <;> norm_num

/-- `fromisoformat` inverts `isoformat` on every constructible datetime
(the Python stdlib contract the persistence layer relies on). -/
theorem fromIso_toIso (d : DateTime) (hv : d.valid) :
    fromIsoChars (toIsoChars d) = some d := by
  obtain ⟨y, mo, da, h, mi, se, us⟩ := d
  obtain ⟨h1, h2, h3, h4, h5, h6, h7, h8, h9, h10⟩ := hv
  simp only at h1 h2 h3 h4 h5 h6 h7 h8 h9 h10
  by_cases hus : us = 0
  · subst hus
    simp only [toIsoChars, if_pos rfl, fromIsoChars]
    rw [if_pos (by simp [isDigitChar_digitChar])]
    simp only [digitVal_digitChar]
    have ey : ((y / 1000 % 10 * 10 + y / 100 % 10) * 10 + y / 10 % 10) * 10 +
        y % 10 = y := by omega
    have hd31 : da ≤ 31 := h6.trans (daysInMonth_le y mo)
    have emo : mo / 10 % 10 * 10 + mo % 10 = mo := by omega
    have eda : da / 10 % 10 * 10 + da % 10 = da := by omega
    have eh : h / 10 % 10 * 10 + h % 10 = h := by omega
    have emi : mi / 10 % 10 * 10 + mi % 10 = mi := by omega
    have ese : se / 10 % 10 * 10 + se % 10 = se := by omega
    rw [ey, emo, eda, eh, emi, ese]
    rw [if_pos ⟨h1, h3, h4, h5, h6, h7, h8, h9⟩]
    simp
  · simp only [toIsoChars, if_neg hus, fromIsoChars]
    rw [if_pos (by simp [isDigitChar_digitChar])]
    simp only [digitVal_digitChar]
    have ey : ((y / 1000 % 10 * 10 + y / 100 % 10) * 10 + y / 10 % 10) * 10 +
        y % 10 = y := by omega
    have hd31 : da ≤ 31 := h6.trans (daysInMonth_le y mo)
    have emo : mo / 10 % 10 * 10 + mo % 10 = mo := by omega
    have eda : da / 10 % 10 * 10 + da % 10 = da := by omega
    have eh : h / 10 % 10 * 10 + h % 10 = h := by omega
    have emi : mi / 10 % 10 * 10 + mi % 10 = mi := by omega
    have ese : se / 10 % 10 * 10 + se % 10 = se := by omega
    rw [ey, emo, eda, eh, emi, ese]
    rw [if_pos ⟨h1, h3, h4, h5, h6, h7, h8, h9⟩]
    simp only [isDigitChar_digitChar]
    rw [if_pos (by simp [isDigitChar_digitChar])]
    simp only [digitVal_digitChar, Option.some.injEq, DateTime.mk.injEq,
      true_and, and_true]
    omega

/-- A JSON-like value, modelling the dictionaries `to_dict` produces and
`json.dump`/`json.load` round-trip through a mission file (Python's
`json` writes floats with `repr`, which round-trips them exactly, so the
file step is the identity at this level; numbers are idealised as
rationals). -/
inductive Val where
  | null
  | bool (b : Bool)
  | num (x : ℚ)
  | str (s : String)
  | obj (fields : List (String × Val))

/-- Dictionary lookup (`data[key]` / `data.get(key)`). -/
def Val.lookupField : Val → String → Option Val
  | .obj fields, k => List.lookup k fields
  | _, _ => none

/-- `data[key]` expected to be text. -/
def getStr (v : Val) (k : String) : Option String :=
  match v.lookupField k with
  | some (.str s) => some s
  | _ => none

/-- `data[key]` expected to be a number. -/
def getNum (v : Val) (k : String) : Option ℚ :=
  match v.lookupField k with
  | some (.num x) => some x
  | _ => none

/-- `data[key]` expected to be a boolean. -/
def getBool (v : Val) (k : String) : Option Bool :=
  match v.lookupField k with
  | some (.bool b) => some b
  | _ => none

/-- `data[key]` expected to be a number or `None`. -/
def getOptNum (v : Val) (k : String) : Option (Option ℚ) :=
  match v.lookupField k with
  | some .null => some none
  | some (.num x) => some (some x)
  | _ => none

/-- Python truthiness of a JSON value (`if data['fuel_requirements']`). -/
def Val.truthy : Val → Bool
  | .null => false
  | .bool b => b
  | .num x => decide (x ≠ 0)
  | .str s => decide (s ≠ "")
  | .obj fields => !fields.isEmpty

/-- An optional number as a JSON value (`None` becomes `null`). -/
def optNumVal : Option ℚ → Val
  | none => .null
  | some x => .num x

/-- `Planet.__post_init__` as a fallible constructor: non-empty name and
all four numeric fields strictly positive. -/
def mkPlanet (name : String) (mass radius orbital_radius escape_velocity : ℚ) :
    Except PyError (Planet ℚ) :=
  if name = "" then .error .valueError
  else if mass ≤ 0 then .error .valueError
  else if radius ≤ 0 then .error .valueError
  else if orbital_radius ≤ 0 then .error .valueError
  else if escape_velocity ≤ 0 then .error .valueError
  else .ok
    { name := name
      mass := mass
      radius := radius
      orbital_radius := orbital_radius
      escape_velocity := escape_velocity }

/-- `Planet.to_dict`. -/
def Planet.toDict (p : Planet ℚ) : Val :=
  .obj
    [("name", .str p.name), ("mass", .num p.mass), ("radius", .num p.radius),
     ("orbital_radius", .num p.orbital_radius),
     ("escape_velocity", .num p.escape_velocity)]

/-- `Planet.from_dict`: read the five fields and re-run construction-time
validation. -/
def Planet.fromDict (v : Val) : Except PyError (Planet ℚ) :=
  match getStr v "name", getNum v "mass", getNum v "radius",
      getNum v "orbital_radius", getNum v "escape_velocity" with
  | some n, some m, some r, some orr, some ev => mkPlanet n m r orr ev
  | _, _, _, _, _ => .error .dataFormatError

/-- `ChemicalEngine` construction (`Engine.__post_init__`). -/
def mkChemicalEngine (name : String) (specific_impulse thrust : ℚ)
    (fuel_type : String) : Except PyError (Engine ℚ) :=
  if name = "" then .error .valueError
  else if specific_impulse ≤ 0 then .error .valueError
  else if thrust ≤ 0 then .error .valueError
  else .ok (.chemical name specific_impulse thrust fuel_type)

/-- `IonEngine` construction (base `__post_init__` plus positive power). -/
def mkIonEngine (name : String) (specific_impulse thrust power_consumption : ℚ) :
    Except PyError (Engine ℚ) :=
  if name = "" then .error .valueError
  else if specific_impulse ≤ 0 then .error .valueError
  else if thrust ≤ 0 then .error .valueError
  else if power_consumption ≤ 0 then .error .valueError
  else .ok (.ion name specific_impulse thrust power_consumption)

/-- `NuclearEngine` construction (base `__post_init__` plus positive
reactor power). -/
def mkNuclearEngine (name : String) (specific_impulse thrust reactor_power : ℚ)
    (propellant_type : String) : Except PyError (Engine ℚ) :=
  if name = "" then .error .valueError
  else if specific_impulse ≤ 0 then .error .valueError
  else if thrust ≤ 0 then .error .valueError
  else if reactor_power ≤ 0 then .error .valueError
  else .ok (.nuclear name specific_impulse thrust reactor_power propellant_type)

/-- `to_dict` of each engine variant, with the `type` discriminant. -/
def Engine.toDict : Engine ℚ → Val
  | .chemical n si t ft =>
    .obj
      [("type", .str "chemical"), ("name", .str n),
       ("specific_impulse", .num si), ("thrust", .num t),
       ("fuel_type", .str ft)]
  | .ion n si t pc =>
    .obj
      [("type", .str "ion"), ("name", .str n),
       ("specific_impulse", .num si), ("thrust", .num t),
       ("power_consumption", .num pc)]
  | .nuclear n si t rp pt =>
    .obj
      [("type", .str "nuclear"), ("name", .str n),
       ("specific_impulse", .num si), ("thrust", .num t),
       ("reactor_power", .num rp), ("propellant_type", .str pt)]

/-- `engine_from_dict`: dispatch on the `type` discriminant to the
matching `from_dict`, rejecting non-mappings and unknown types. -/
def engine_from_dict (v : Val) : Except PyError (Engine ℚ) :=
  match v with
  | .obj _ =>
    match getStr v "type" with
    | some "chemical" =>
      match getStr v "name", getNum v "specific_impulse", getNum v "thrust",
          getStr v "fuel_type" with
      | some n, some si, some t, some ft => mkChemicalEngine n si t ft
      | _, _, _, _ => .error .dataFormatError
    | some "ion" =>
      match getStr v "name", getNum v "specific_impulse", getNum v "thrust",
          getNum v "power_consumption" with
      | some n, some si, some t, some pc => mkIonEngine n si t pc
      | _, _, _, _ => .error .dataFormatError
    | some "nuclear" =>
      match getStr v "name", getNum v "specific_impulse", getNum v "thrust",
          getNum v "reactor_power", getStr v "propellant_type" with
      | some n, some si, some t, some rp, some pt =>
        mkNuclearEngine n si t rp pt
      | _, _, _, _, _ => .error .dataFormatError
    | _ => .error .valueError
  | _ => .error .valueError

/-- `FuelResult.to_dict` (the models-layer copy used by persistence). -/
def FuelResult.toDict (r : FuelResult ℚ) : Val :=
  .obj
    [("outbound_fuel", .num r.outbound_fuel),
     ("return_fuel", optNumVal r.return_fuel),
     ("total_fuel", .num r.total_fuel),
     ("delta_v_outbound", .num r.delta_v_outbound),
     ("delta_v_return", optNumVal r.delta_v_return),
     ("total_delta_v", .num r.total_delta_v),
     ("engine_used", r.engine_used.toDict),
     ("trajectory_type", .str r.trajectory_type)]

/-- `FuelResult.from_dict`: read all fields, rebuild the engine through
`engine_from_dict`, and re-run `__post_init__`. -/
def FuelResult.fromDict (v : Val) : Except PyError (FuelResult ℚ) :=
  match getNum v "outbound_fuel", getOptNum v "return_fuel",
      getNum v "total_fuel", getNum v "delta_v_outbound",
      getOptNum v "delta_v_return", getNum v "total_delta_v",
      v.lookupField "engine_used", getStr v "trajectory_type" with
  | some of, some rf, some tf, some dvo, some dvr, some tdv, some ev, some tt =>
    match engine_from_dict ev with
    | .ok e => mkFuelResult of rf tf dvo dvr tdv e tt
    | .error er => .error er
  | _, _, _, _, _, _, _, _ => .error .dataFormatError

/-- `Mission` from `models/mission.py` (over `ℚ`, with a `DateTime`
timestamp). -/
structure Mission where
  id : String
  name : String
  destination : Planet ℚ
  payload_mass : ℚ
  engine : Engine ℚ
  use_gravity_assists : Bool
  created_at : DateTime
  fuel_requirements : Option (FuelResult ℚ)
  deriving DecidableEq, Repr

/-- `Mission.__post_init__`: non-empty id and name, non-negative payload
mass. -/
def mkMission (id name : String) (destination : Planet ℚ) (payload_mass : ℚ)
    (engine : Engine ℚ) (use_gravity_assists : Bool) (created_at : DateTime)
    (fuel_requirements : Option (FuelResult ℚ)) : Except PyError Mission :=
  if id = "" then .error .valueError
  else if name = "" then .error .valueError
  else if payload_mass < 0 then .error .valueError
  else .ok
    { id := id
      name := name
      destination := destination
      payload_mass := payload_mass
      engine := engine
      use_gravity_assists := use_gravity_assists
      created_at := created_at
      fuel_requirements := fuel_requirements }

/-- `Mission.to_dict`: nested planet/engine/fuel dictionaries, the
timestamp as its `isoformat` string, absent fuel requirements as `null`. -/
def Mission.toDict (m : Mission) : Val :=
  .obj
    [("id", .str m.id), ("name", .str m.name),
     ("destination", m.destination.toDict),
     ("payload_mass", .num m.payload_mass),
     ("engine", m.engine.toDict),
     ("use_gravity_assists", .bool m.use_gravity_assists),
     ("created_at", .str (String.mk (toIsoChars m.created_at))),
     ("fuel_requirements",
       match m.fuel_requirements with
       | some fr => fr.toDict
       | none => .null)]

/-- `Mission.from_dict`: read every field, deserialize the nested values
(`fuel_requirements` only when truthy, as in the source), parse the
timestamp, and re-run `__post_init__`. -/
def Mission.fromDict (v : Val) : Except PyError Mission :=
  match getStr v "id", getStr v "name", v.lookupField "destination",
      getNum v "payload_mass", v.lookupField "engine",
      getBool v "use_gravity_assists", getStr v "created_at",
      v.lookupField "fuel_requirements" with
  | some i, some n, some dest, some pm, some eng, some uga, some ca, some fr =>
    match Planet.fromDict dest with
    | .error e => .error e
    | .ok p =>
      match engine_from_dict eng with
      | .error e => .error e
      | .ok e =>
        match fromIsoChars ca.data with
        | none => .error .valueError
        | some dt =>
          if fr.truthy then
            match FuelResult.fromDict fr with
            | .error er => .error er
            | .ok f => mkMission i n p pm e uga dt (some f)
          else mkMission i n p pm e uga dt none
  | _, _, _, _, _, _, _, _ => .error .dataFormatError

/-- `MissionManager._validate_mission_structure`: the schema gate run by
`load_mission` before model deserialization. -/
def validate_mission_structure (v : Val) : Except PyError Unit :=
  if (v.lookupField "id").isNone ∨ (v.lookupField "name").isNone ∨
      (v.lookupField "destination").isNone ∨
      (v.lookupField "payload_mass").isNone ∨
      (v.lookupField "engine").isNone ∨
      (v.lookupField "use_gravity_assists").isNone ∨
      (v.lookupField "created_at").isNone then .error .dataFormatError
  else
    match getStr v "id" with
    | none => .error .dataFormatError
    | some i =>
      if i = "" then .error .dataFormatError
      else
        match getStr v "name" with
        | none => .error .dataFormatError
        | some n =>
          if n = "" then .error .dataFormatError
          else
            match getNum v "payload_mass" with
            | none => .error .dataFormatError
            | some pm =>
              if pm < 0 then .error .dataFormatError
              else
                match getBool v "use_gravity_assists" with
                | none => .error .dataFormatError
                | some _ =>
                  match v.lookupField "destination" with
                  | some (.obj dflds) =>
                    if (List.lookup "name" dflds).isNone ∨
                        (List.lookup "mass" dflds).isNone ∨
                        (List.lookup "radius" dflds).isNone ∨
                        (List.lookup "orbital_radius" dflds).isNone ∨
                        (List.lookup "escape_velocity" dflds).isNone then
                      .error .dataFormatError
                    else
                      match v.lookupField "engine" with
                      | some (.obj eflds) =>
                        if (List.lookup "type" eflds).isNone ∨
                            (List.lookup "name" eflds).isNone ∨
                            (List.lookup "specific_impulse" eflds).isNone ∨
                            (List.lookup "thrust" eflds).isNone then
                          .error .dataFormatError
                        else
                          match getStr v "created_at" with
                          | none => .error .dataFormatError
                          | some ca =>
                            match fromIsoChars ca.data with
                            | none => .error .dataFormatError
                            | some _ =>
                              if (((v.lookupField "fuel_requirements").getD
                                  .null).truthy) then
                                match v.lookupField "fuel_requirements" with
                                | some (.obj fflds) =>
                                  if (List.lookup "outbound_fuel" fflds).isNone ∨
                                      (List.lookup "total_fuel" fflds).isNone ∨
                                      (List.lookup "delta_v_outbound"
                                        fflds).isNone ∨
                                      (List.lookup "total_delta_v"
                                        fflds).isNone ∨
                                      (List.lookup "engine_used" fflds).isNone ∨
                                      (List.lookup "trajectory_type"
                                        fflds).isNone then
                                    .error .dataFormatError
                                  else .ok ()
                                | _ => .error .dataFormatError
                              else .ok ()
                      | _ => .error .dataFormatError
                  | _ => .error .dataFormatError

/-- `MissionManager.save_mission`, modelled as the produced file name and
the JSON document written to it (`json.dump` of `mission.to_dict()`). -/
def save_mission (m : Mission) : String × Val :=
  (m.id ++ "_" ++
    String.mk (m.name.data.map fun c => if c = ' ' then '_' else c) ++ ".json",
   m.toDict)

/-- `MissionManager.load_mission` applied to a file's parsed JSON
document: structural validation, then model deserialization; every
underlying failure is re-raised as `DataFormatError`. -/
def load_mission (v : Val) : Except PyError Mission :=
  match validate_mission_structure v with
  | .error _ => .error .dataFormatError
  | .ok _ =>
    match Mission.fromDict v with
    | .error _ => .error .dataFormatError
    | .ok m => .ok m

/-- The construction-time invariants of `Planet` (over `ℚ`). -/
def Planet.validQ (p : Planet ℚ) : Prop :=
  p.name ≠ "" ∧ 0 < p.mass ∧ 0 < p.radius ∧ 0 < p.orbital_radius ∧
    0 < p.escape_velocity

instance (p : Planet ℚ) : Decidable p.validQ := by
  unfold Planet.validQ
  infer_instance

/-- The construction-time invariants of each engine variant. -/
def Engine.validQ : Engine ℚ → Prop
  | .chemical n si t _ => n ≠ "" ∧ 0 < si ∧ 0 < t
  | .ion n si t pc => n ≠ "" ∧ 0 < si ∧ 0 < t ∧ 0 < pc
  | .nuclear n si t rp _ => n ≠ "" ∧ 0 < si ∧ 0 < t ∧ 0 < rp

instance (e : Engine ℚ) : Decidable e.validQ := by
  unfold Engine.validQ
  cases e <;> infer_instance

/-- The construction-time invariants of `FuelResult` (including a valid
engine, so the nested engine deserializes). -/
def FuelResult.validQ (r : FuelResult ℚ) : Prop :=
  0 ≤ r.outbound_fuel ∧ (∀ x ∈ r.return_fuel, 0 ≤ x) ∧ 0 ≤ r.total_fuel ∧
    0 ≤ r.delta_v_outbound ∧ (∀ x ∈ r.delta_v_return, 0 ≤ x) ∧
    0 ≤ r.total_delta_v ∧ r.engine_used.validQ

instance (r : FuelResult ℚ) : Decidable r.validQ := by
  unfold FuelResult.validQ
  infer_instance

/-- A constructible `Mission`: every nested construction-time invariant
holds (this is exactly what surviving the Python constructors
guarantees). -/
def Mission.constructible (m : Mission) : Prop :=
  m.id ≠ "" ∧ m.name ≠ "" ∧ 0 ≤ m.payload_mass ∧ m.destination.validQ ∧
    m.engine.validQ ∧ m.created_at.valid ∧
    (∀ f ∈ m.fuel_requirements, f.validQ)

instance (m : Mission) : Decidable m.constructible := by
  unfold Mission.constructible
  infer_instance

/-- Shared helper: planet serialization round-trips on valid planets. -/
theorem planet_roundtrip (p : Planet ℚ) (h : p.validQ) :
    Planet.fromDict p.toDict = .ok p := by
  obtain ⟨h1, h2, h3, h4, h5⟩ := h
  have hred : Planet.fromDict p.toDict =
      mkPlanet p.name p.mass p.radius p.orbital_radius p.escape_velocity := rfl
  rw [hred, mkPlanet, if_neg h1, if_neg (not_le.2 h2), if_neg (not_le.2 h3),
    if_neg (not_le.2 h4), if_neg (not_le.2 h5)]

/-- Shared helper: engine serialization round-trips on valid engines. -/
theorem engine_roundtrip (e : Engine ℚ) (h : e.validQ) :
    engine_from_dict e.toDict = .ok e := by
  cases e with
  | chemical n si t ft =>
    obtain ⟨h1, h2, h3⟩ := h
    have hred : engine_from_dict (Engine.toDict (.chemical n si t ft)) =
        mkChemicalEngine n si t ft := rfl
    rw [hred, mkChemicalEngine, if_neg h1, if_neg (not_le.2 h2),
      if_neg (not_le.2 h3)]
  | ion n si t pc =>
    obtain ⟨h1, h2, h3, h4⟩ := h
    have hred : engine_from_dict (Engine.toDict (.ion n si t pc)) =
        mkIonEngine n si t pc := rfl
    rw [hred, mkIonEngine, if_neg h1, if_neg (not_le.2 h2),
      if_neg (not_le.2 h3), if_neg (not_le.2 h4)]
  | nuclear n si t rp pt =>
    obtain ⟨h1, h2, h3, h4⟩ := h
    have hred : engine_from_dict (Engine.toDict (.nuclear n si t rp pt)) =
        mkNuclearEngine n si t rp pt := rfl
    rw [hred, mkNuclearEngine, if_neg h1, if_neg (not_le.2 h2),
      if_neg (not_le.2 h3), if_neg (not_le.2 h4)]

/-- Shared helper: fuel-result serialization round-trips on valid
results. -/
theorem fuelresult_roundtrip (r : FuelResult ℚ) (h : r.validQ) :
    FuelResult.fromDict r.toDict = .ok r := by
  obtain ⟨of, rf, tf, dvo, dvr, tdv, e, tt⟩ := r
  obtain ⟨h1, h2, h3, h4, h5, h6, h7⟩ := h
  simp only at h1 h2 h3 h4 h5 h6 h7
  have hred : FuelResult.fromDict
      (FuelResult.toDict ⟨of, rf, tf, dvo, dvr, tdv, e, tt⟩) =
      (match engine_from_dict e.toDict with
       | .ok e2 => mkFuelResult of rf tf dvo dvr tdv e2 tt
       | .error er => .error er) := by
    cases rf <;> cases dvr <;> rfl
  rw [hred, engine_roundtrip e h7]
  have hrf : optIsNeg rf = false := by
    cases rf with
    | none => rfl
    | some x =>
      simp only [optIsNeg, decide_eq_false_iff_not, not_lt]
      exact h2 x rfl
  have hdvr : optIsNeg dvr = false := by
    cases dvr with
    | none => rfl
    | some x =>
      simp only [optIsNeg, decide_eq_false_iff_not, not_lt]
      exact h5 x rfl
  simp only [mkFuelResult, hrf, hdvr, Bool.false_eq_true, if_false]
  rw [if_neg (not_lt.2 h1), if_neg (not_lt.2 h3), if_neg (not_lt.2 h4),
    if_neg (not_lt.2 h6)]

/-- Shared helper: the structural schema gate accepts every document
`save_mission` writes for a constructible mission. -/
theorem validate_structure_save (m : Mission) (h : m.constructible) :
    validate_mission_structure m.toDict = .ok () := by
  obtain ⟨i, n, dest, pm, eng, uga, ca, fr⟩ := m
  obtain ⟨h1, h2, h3, hdest, heng, hca, hfr⟩ := h
  simp only at h1 h2 h3 hca
  have hred : validate_mission_structure
      (Mission.toDict ⟨i, n, dest, pm, eng, uga, ca, fr⟩) =
      (if i = "" then .error .dataFormatError
       else if n = "" then .error .dataFormatError
       else if pm < 0 then .error .dataFormatError
       else
         match fromIsoChars (toIsoChars ca) with
         | none => .error .dataFormatError
         | some _ => .ok ()) := by
    cases eng <;> cases fr <;> rfl
  rw [hred, if_neg h1, if_neg h2, if_neg (not_lt.2 h3),
    fromIso_toIso ca hca]

/-- Shared helper: `Mission.from_dict` inverts `Mission.to_dict` on
constructible missions. -/
theorem mission_fromDict_roundtrip (m : Mission) (h : m.constructible) :
    Mission.fromDict m.toDict = .ok m := by
  obtain ⟨i, n, dest, pm, eng, uga, ca, fr⟩ := m
  obtain ⟨h1, h2, h3, hdest, heng, hca, hfr⟩ := h
  simp only at h1 h2 h3 hdest heng hca hfr
  cases fr with
  | none =>
    have hred : Mission.fromDict
        (Mission.toDict ⟨i, n, dest, pm, eng, uga, ca, none⟩) =
        (match Planet.fromDict dest.toDict with
         | .error e => .error e
         | .ok p =>
           match engine_from_dict eng.toDict with
           | .error e => .error e
           | .ok e2 =>
             match fromIsoChars (toIsoChars ca) with
             | none => .error .valueError
             | some dt => mkMission i n p pm e2 uga dt none) := by
      cases eng <;> rfl
    rw [hred, planet_roundtrip dest hdest, engine_roundtrip eng heng,
      fromIso_toIso ca hca]
    show mkMission i n dest pm eng uga ca none =
      .ok ⟨i, n, dest, pm, eng, uga, ca, none⟩
    rw [mkMission, if_neg h1, if_neg h2, if_neg (not_lt.2 h3)]
  | some f =>
    have hf : f.validQ := hfr f rfl
    have hred : Mission.fromDict
        (Mission.toDict ⟨i, n, dest, pm, eng, uga, ca, some f⟩) =
        (match Planet.fromDict dest.toDict with
         | .error e => .error e
         | .ok p =>
           match engine_from_dict eng.toDict with
           | .error e => .error e
           | .ok e2 =>
             match fromIsoChars (toIsoChars ca) with
             | none => .error .valueError
             | some dt =>
               match FuelResult.fromDict f.toDict with
               | .error er => .error er
               | .ok f2 => mkMission i n p pm e2 uga dt (some f2)) := by
      cases eng <;> rfl
    rw [hred, planet_roundtrip dest hdest, engine_roundtrip eng heng,
      fromIso_toIso ca hca, fuelresult_roundtrip f hf]
    show mkMission i n dest pm eng uga ca (some f) =
      .ok ⟨i, n, dest, pm, eng, uga, ca, some f⟩
    rw [mkMission, if_neg h1, if_neg h2, if_neg (not_lt.2 h3)]

/-- C4: for every constructible `Mission` (any nested planet, any of the
three engine variants, fuel requirements present or absent),
`save_mission` followed by `load_mission` of the written file reproduces a
value-equal mission: every field compares equal to the original. -/
theorem C4_mission_save_load_roundtrip (m : Mission) (h : m.constructible) :
    load_mission (save_mission m).2 = .ok m := by
  show load_mission m.toDict = .ok m
  unfold load_mission
  rw [validate_structure_save m h, mission_fromDict_roundtrip m h]

/-- A concrete constructible mission (nested Mars-like planet, chemical
engine, round-trip fuel requirements, microsecond timestamp) for the C4
witness. -/
def witnessMission : Mission :=
  { id := "m1"
    name := "Mars Sample Return"
    destination :=
      { name := "Марс"
        mass := 6.4171e23
        radius := 3.3972e6
        orbital_radius := 2.279391e11
        escape_velocity := 5027 }
    payload_mass := 5000
    engine := qChemEngine
    use_gravity_assists := false
    created_at :=
      { year := 2026, month := 10, day := 12, hour := 8, minute := 30,
        second := 5, microsecond := 123456 }
    fuel_requirements :=
      some
        { outbound_fuel := 1000
          return_fuel := some 2000
          total_fuel := 3000
          delta_v_outbound := 3600
          delta_v_return := some 7200
          total_delta_v := 10800
          engine_used := qChemEngine
          trajectory_type := "round_trip" } }

/-- Witness for C4: the concrete mission round-trips through
`save_mission`/`load_mission`. -/
theorem C4_mission_save_load_roundtrip_witness :
    load_mission (save_mission witnessMission).2 = .ok witnessMission := by
  apply C4_mission_save_load_roundtrip
  refine ⟨by decide, by decide, by norm_num [witnessMission], ?_, ?_, by decide, ?_⟩
  · refine ⟨by decide, ?_, ?_, ?_, ?_⟩ <;> norm_num [witnessMission, Planet.validQ]
  · exact ⟨by decide, by norm_num [witnessMission, qChemEngine],
      by norm_num [witnessMission, qChemEngine]⟩
  · intro f hf
    simp only [witnessMission, Option.mem_def, Option.some.injEq] at hf
    subst hf
    refine ⟨by norm_num, ?_, by norm_num, by norm_num, ?_, by norm_num, ?_⟩
    · intro x hx
      simp only [Option.mem_def, Option.some.injEq] at hx
      subst hx
      norm_num
    · intro x hx
      simp only [Option.mem_def, Option.some.injEq] at hx
      subst hx
      norm_num
    · exact ⟨by decide, by norm_num [qChemEngine],
        by norm_num [qChemEngine]⟩

end SFC
